import Mathlib

/-!
# Volume resource of the gcore provider (`resource_gcore_volume_v1.go`)

A shallow embedding of the lifecycle callbacks of the volume resource:
`resourceVolumeCreate`, `resourceVolumeRead`, `resourceVolumeUpdate`,
`resourceVolumeDelete`, the importer `State` function, and the helpers
`getVolumeData`, `createVolumeRequestBody`, `parseJSONVolume`, `getVolume`,
`ExtendVolume`, `RetypeVolume`.

Modelling conventions.

* Go `int` is `Int`; the 64-bit range matters only where `encoding/json`
  decodes a number into an `int` field, and is checked there (`inIntRange`).
* Go `string` is `String`: valid Unicode text, as the strings of a
  configuration are.
* A Go `error` value is an `Error`; a returned `error` is `Option Error`
  (`none` is `nil`).  A run-time panic (index out of range, nil dereference)
  is the `Outcome.panic` result: it is not a returned error.
* A byte slice holding JSON text is abstracted by the JSON value it denotes
  (`Bytes`), so `json.Marshal` and `json.Unmarshal` are modelled on values.
* The functions of package `common`, `ioutil.ReadAll` on a response body and
  `mapstructure.Decode` live outside this file of the provider.  They are the
  fields of `Env`: arbitrary functions of an abstract world state `W`, so that
  every behaviour of the collaborators (including answers that change from
  one call to the next) is covered.  Every call to one of them is recorded,
  with its arguments and its answer, as an `Event`.
* Logging (`log.Println`, `log.Printf`) and `defer resp.Body.Close()` have no
  effect on the results and are left out.
-/

set_option linter.dupNamespace false

namespace GcoreVolume

/-! ## Data model -/

/-- A Go `error` value, identified by its message. -/
abbrev Error := String

/-- JSON values.  A number literal that is an integer is `num`; any other
number literal (with a fraction or an exponent) is `frac`. -/
inductive JVal where
  | null
  | bool (b : Bool)
  | num (n : Int)
  | frac (literal : String)
  | str (s : String)
  | arr (items : List JVal)
  | obj (members : List (String × JVal))

/-- A byte slice, abstracted by what it holds: the text of a JSON value, or
bytes that are not JSON (with the syntax error `encoding/json` reports). -/
inductive Bytes where
  | json (v : JVal)
  | invalid (syntaxError : Error)

/-- Constants `volumeDeleting`, `volumeCreating`, `volumeExtending`. -/
def volumeDeleting : Int := 1200

def volumeCreating : Int := 1200

def volumeExtending : Int := 1200

/-- Go struct `Volume` (the create payload). -/
structure Volume where
  Size : Int
  Source : String
  Name : String
  TypeName : String
  ImageID : String
  SnapshotID : String
  deriving DecidableEq, Repr

/-- Go struct `OpenstackVolume` (the observed volume). -/
structure OpenstackVolume where
  Size : Int
  RegionID : Int
  ProjectID : Int
  TypeName : String
  Source : String
  Name : String
  deriving DecidableEq, Repr

/-- Go struct `VolumeIds`. -/
structure VolumeIds where
  Volumes : List String
  deriving DecidableEq, Repr

/-- Go struct `Type` (the retype payload). -/
structure Type_ where
  VolumeType : String
  deriving DecidableEq, Repr

/-- Go struct `Size` (the extend payload). -/
structure Size where
  Size : Int
  deriving DecidableEq, Repr

/-- The `*schema.ResourceData` handle of the resource: its identity (`d.Id()`)
and the value of every field declared in the `Schema` of `resourceVolumeV1`
(`d.Get` reads a field, `d.Set` writes it). -/
structure ResourceData where
  Id : String
  project_id : Int
  region_id : Int
  project_name : String
  region_name : String
  name : String
  source : String
  size : Int
  type_name : String
  image_id : String
  snapshot_id : String
  deriving DecidableEq, Repr

/-- The `common.Session` value, opaque to this file. -/
structure Session where
  token : String
  deriving DecidableEq, Repr

/-- The parts of `common.Config` the resource reads. -/
structure Config where
  Session : Session
  Host : String
  Timeout : Int
  deriving DecidableEq, Repr

/-- An `*http.Response`: its status code and a handle on its body stream. -/
structure Response where
  StatusCode : Int
  Body : Nat
  deriving DecidableEq, Repr

/-- The URLs built by `common.ResourcesV1URL`, `common.ResourceV1URL` and
`common.ExpandedResourceV1URL`, kept as the call that builds them. -/
inductive URL where
  | ResourcesV1URL (host name : String) (projectID regionID : Int)
  | ResourceV1URL (host name : String) (projectID regionID : Int) (id : String)
  | ExpandedResourceV1URL (host name : String) (projectID regionID : Int) (id action : String)
  deriving DecidableEq, Repr

/-- One call to a collaborator, with its arguments and its answer. -/
inductive Event where
  | GetProject (contextMessage : String) (result : Except Error Int)
  | GetRegion (contextMessage : String) (result : Except Error Int)
  | PostRequest (url : URL) (body : Bytes) (timeout : Int) (result : Except Error Response)
  | DeleteRequest (url : URL) (timeout : Int) (result : Except Error Response)
  | GetRequest (url : URL) (timeout : Int) (result : Except Error Response)
  | CheckSuccessfulResponse (resp : Response) (message : String) (result : Option Error)
  | WaitForTasksInResponse (resp : Response) (timeout : Int) (result : List JVal × Option Error)
  | ReadAll (resp : Response) (result : Except Error Bytes)

/-- The collaborators, as functions of an abstract world state `W`. -/
structure Env (W : Type) where
  GetProject : W → Config → ResourceData → String → Except Error Int × W
  GetRegion : W → Config → ResourceData → String → Except Error Int × W
  PostRequest : W → Session → URL → Bytes → Int → Except Error Response × W
  DeleteRequest : W → Session → URL → Int → Except Error Response × W
  GetRequest : W → Session → URL → Int → Except Error Response × W
  CheckSuccessfulResponse : W → Response → String → Option Error × W
  WaitForTasksInResponse : W → Config → Response → Int → (List JVal × Option Error) × W
  ReadAll : W → Response → Except Error Bytes × W
  ImportStringParser : String → Except Error (Int × Int × String)
  mapstructureDecode : JVal → VolumeIds

/-! ## Execution -/

/-- How a Go call ends: it returns a value, or it panics. -/
inductive Outcome (α : Type) where
  | val (a : α)
  | panic (msg : String)

/-- The mutable state of a call: the world of the collaborators and the
record `d`. -/
structure St (W : Type) where
  world : W
  d : ResourceData

/-- The result of running a piece of code: how it ended, the state it left,
and the collaborator calls it made, in order. -/
structure Run (W : Type) (α : Type) where
  ret : Outcome α
  st : St W
  events : List Event

/-- A piece of code, as a function of the state it starts in. -/
def Exec (W : Type) (α : Type) : Type := St W → Run W α

namespace Exec

variable {W : Type} {α β : Type}

/-- Return a value without touching the state. -/
@[simp]
def pure (a : α) : Exec W α := fun s => ⟨.val a, s, []⟩

/-- Sequencing: a panic stops the run, and the events of both parts are
concatenated. -/
@[simp]
def bind (x : Exec W α) (f : α → Exec W β) : Exec W β := fun s =>
  match (x s).ret with
  | .panic msg => ⟨.panic msg, (x s).st, (x s).events⟩
  | .val a =>
    ⟨(f a (x s).st).ret, (f a (x s).st).st, (x s).events ++ (f a (x s).st).events⟩

/-- A run-time panic. -/
@[simp]
def panic (msg : String) : Exec W α := fun s => ⟨.panic msg, s, []⟩

/-- The record, as `d.Get` and `d.Id` see it. -/
@[simp]
def getD : Exec W ResourceData := fun s => ⟨.val s.d, s, []⟩

/-- Update the record, as `d.Set` and `d.SetId` do. -/
@[simp]
def modifyD (f : ResourceData → ResourceData) : Exec W Unit := fun s =>
  ⟨.val (), { s with d := f s.d }, []⟩

end Exec

instance {W : Type} : Monad (Exec W) where
  pure := Exec.pure
  bind := Exec.bind

/-! ## Package `common`, `ioutil` and `mapstructure`: recorded calls -/

namespace common

variable {W : Type}

/-- The call `common.GetProject(config, d, contextMessage)`. -/
@[simp]
def GetProject (env : Env W) (config : Config) (contextMessage : String) :
    Exec W (Except Error Int) := fun s =>
  ⟨.val (env.GetProject s.world config s.d contextMessage).1,
    { s with world := (env.GetProject s.world config s.d contextMessage).2 },
    [Event.GetProject contextMessage (env.GetProject s.world config s.d contextMessage).1]⟩

/-- The call `common.GetRegion(config, d, contextMessage)`. -/
@[simp]
def GetRegion (env : Env W) (config : Config) (contextMessage : String) :
    Exec W (Except Error Int) := fun s =>
  ⟨.val (env.GetRegion s.world config s.d contextMessage).1,
    { s with world := (env.GetRegion s.world config s.d contextMessage).2 },
    [Event.GetRegion contextMessage (env.GetRegion s.world config s.d contextMessage).1]⟩

/-- The call `common.PostRequest(&session, url, body, timeout)`. -/
@[simp]
def PostRequest (env : Env W) (session : Session) (url : URL) (body : Bytes) (timeout : Int) :
    Exec W (Except Error Response) := fun s =>
  ⟨.val (env.PostRequest s.world session url body timeout).1,
    { s with world := (env.PostRequest s.world session url body timeout).2 },
    [Event.PostRequest url body timeout (env.PostRequest s.world session url body timeout).1]⟩

/-- The call `common.DeleteRequest(session, url, timeout)`. -/
@[simp]
def DeleteRequest (env : Env W) (session : Session) (url : URL) (timeout : Int) :
    Exec W (Except Error Response) := fun s =>
  ⟨.val (env.DeleteRequest s.world session url timeout).1,
    { s with world := (env.DeleteRequest s.world session url timeout).2 },
    [Event.DeleteRequest url timeout (env.DeleteRequest s.world session url timeout).1]⟩

/-- The call `common.GetRequest(session, url, timeout)`. -/
@[simp]
def GetRequest (env : Env W) (session : Session) (url : URL) (timeout : Int) :
    Exec W (Except Error Response) := fun s =>
  ⟨.val (env.GetRequest s.world session url timeout).1,
    { s with world := (env.GetRequest s.world session url timeout).2 },
    [Event.GetRequest url timeout (env.GetRequest s.world session url timeout).1]⟩

/-- The call `common.CheckSuccessfulResponse(resp, message)`. -/
@[simp]
def CheckSuccessfulResponse (env : Env W) (resp : Response) (message : String) :
    Exec W (Option Error) := fun s =>
  ⟨.val (env.CheckSuccessfulResponse s.world resp message).1,
    { s with world := (env.CheckSuccessfulResponse s.world resp message).2 },
    [Event.CheckSuccessfulResponse resp message (env.CheckSuccessfulResponse s.world resp message).1]⟩

/-- The call `common.WaitForTasksInResponse(config, resp, timeout)`: the task
results and the error it returns. -/
@[simp]
def WaitForTasksInResponse (env : Env W) (config : Config) (resp : Response) (timeout : Int) :
    Exec W (List JVal × Option Error) := fun s =>
  ⟨.val (env.WaitForTasksInResponse s.world config resp timeout).1,
    { s with world := (env.WaitForTasksInResponse s.world config resp timeout).2 },
    [Event.WaitForTasksInResponse resp timeout
      (env.WaitForTasksInResponse s.world config resp timeout).1]⟩

end common

namespace ioutil

variable {W : Type}

/-- The call `ioutil.ReadAll(resp.Body)`. -/
@[simp]
def ReadAll (env : Env W) (resp : Response) : Exec W (Except Error Bytes) := fun s =>
  ⟨.val (env.ReadAll s.world resp).1, { s with world := (env.ReadAll s.world resp).2 },
    [Event.ReadAll resp (env.ReadAll s.world resp).1]⟩

end ioutil

/-! ## `encoding/json` on the structs of this file -/

namespace json

/-- The range of a 64-bit Go `int`. -/
def inIntRange (n : Int) : Bool :=
  decide (-9223372036854775808 ≤ n) && decide (n ≤ 9223372036854775807)

/-- A string member tagged `omitempty`: left out when the string is empty. -/
def omitempty (key : String) (s : String) : List (String × JVal) :=
  if s = "" then [] else [(key, JVal.str s)]

/-- The JSON object `json.Marshal` writes for a `Volume`, following the
struct tags: `size`, `source`, `name` always, `type_name`, `image_id`,
`snapshot_id` under `omitempty`. -/
def encodeVolume (v : Volume) : JVal :=
  JVal.obj ([("size", JVal.num v.Size), ("source", JVal.str v.Source), ("name", JVal.str v.Name)]
    ++ omitempty "type_name" v.TypeName
    ++ omitempty "image_id" v.ImageID
    ++ omitempty "snapshot_id" v.SnapshotID)

/-- The JSON object `json.Marshal` writes for a `Size`. -/
def encodeSize (v : Size) : JVal :=
  JVal.obj [("size", JVal.num v.Size)]

/-- The JSON object `json.Marshal` writes for a `Type`. -/
def encodeType (v : Type_) : JVal :=
  JVal.obj [("volume_type", JVal.str v.VolumeType)]

/-- The call `json.Marshal(&volumeData)` on a `Volume`: integers and strings
always encode, so the error is always `nil`. -/
def Marshal_Volume (v : Volume) : Except Error Bytes :=
  Except.ok (Bytes.json (encodeVolume v))

/-- The call `json.Marshal(&bodyData)` on a `Size`. -/
def Marshal_Size (v : Size) : Except Error Bytes :=
  Except.ok (Bytes.json (encodeSize v))

/-- The call `json.Marshal(&bodyData)` on a `Type`. -/
def Marshal_Type (v : Type_) : Except Error Bytes :=
  Except.ok (Bytes.json (encodeType v))

/-- Case folding of one character as `encoding/json` compares keys with
ASCII field names: ASCII letters fold to lower case, the Kelvin sign folds to
`k` and the long s to `s`. -/
def foldChar (c : Char) : Char :=
  if c = Char.ofNat 0x212A then 'k' else if c = Char.ofNat 0x017F then 's' else c.toLower

/-- Case-insensitive comparison of a field name and an object key. -/
def equalFold (name key : String) : Bool :=
  name.toList.map foldChar == key.toList.map foldChar

/-- The struct field an object key is decoded into: the field whose name is
the key, else the first field whose name matches it case-insensitively. -/
def fieldFor (names : List String) (key : String) : Option String :=
  match names.find? (fun n => n == key) with
  | some n => some n
  | none => names.find? (fun n => equalFold n key)

/-- Decoding a JSON value into an `int` field: `null` leaves the field as it
is, an integer literal in range is stored, anything else is an
`UnmarshalTypeError`. -/
def decodeInt (field : String) (x : JVal) : Except Error (Option Int) :=
  match x with
  | JVal.null => Except.ok none
  | JVal.num n =>
    if inIntRange n then Except.ok (some n)
    else Except.error ("json: cannot unmarshal number into Go struct field " ++ field ++ " of type int")
  | _ => Except.error ("json: cannot unmarshal value into Go struct field " ++ field ++ " of type int")

/-- Decoding a JSON value into a `string` field. -/
def decodeString (field : String) (x : JVal) : Except Error (Option String) :=
  match x with
  | JVal.null => Except.ok none
  | JVal.str s => Except.ok (some s)
  | _ => Except.error ("json: cannot unmarshal value into Go struct field " ++ field ++ " of type string")

/-- The first error met is the one `json.Unmarshal` returns. -/
def saveError (saved : Option Error) (e : Error) : Option Error :=
  match saved with
  | some e0 => some e0
  | none => some e

/-- Decoding one object member into a `Volume`. -/
def setVolumeMember (acc : Volume × Option Error) (m : String × JVal) : Volume × Option Error :=
  match fieldFor ["size", "source", "name", "type_name", "image_id", "snapshot_id"] m.1 with
  | none => acc
  | some f =>
    if f = "size" then
      match decodeInt "Volume.size" m.2 with
      | Except.ok (some n) => ({ acc.1 with Size := n }, acc.2)
      | Except.ok none => acc
      | Except.error e => (acc.1, saveError acc.2 e)
    else
      match decodeString ("Volume." ++ f) m.2 with
      | Except.ok (some s) =>
        if f = "source" then ({ acc.1 with Source := s }, acc.2)
        else if f = "name" then ({ acc.1 with Name := s }, acc.2)
        else if f = "type_name" then ({ acc.1 with TypeName := s }, acc.2)
        else if f = "image_id" then ({ acc.1 with ImageID := s }, acc.2)
        else ({ acc.1 with SnapshotID := s }, acc.2)
      | Except.ok none => acc
      | Except.error e => (acc.1, saveError acc.2 e)

/-- The call `json.Unmarshal(data, &volume)` into a `Volume` holding `v`. -/
def Unmarshal_Volume (data : Bytes) (v : Volume) : Volume × Option Error :=
  match data with
  | Bytes.invalid e => (v, some e)
  | Bytes.json JVal.null => (v, none)
  | Bytes.json (JVal.obj members) => members.foldl setVolumeMember (v, none)
  | Bytes.json _ => (v, some "json: cannot unmarshal value into Go value of type main.Volume")

/-- Decoding one object member into an `OpenstackVolume`. -/
def setOpenstackVolumeMember (acc : OpenstackVolume × Option Error) (m : String × JVal) :
    OpenstackVolume × Option Error :=
  match fieldFor ["size", "region_id", "project_id", "volume_type", "source", "name"] m.1 with
  | none => acc
  | some f =>
    if f = "size" ∨ f = "region_id" ∨ f = "project_id" then
      match decodeInt ("OpenstackVolume." ++ f) m.2 with
      | Except.ok (some n) =>
        if f = "size" then ({ acc.1 with Size := n }, acc.2)
        else if f = "region_id" then ({ acc.1 with RegionID := n }, acc.2)
        else ({ acc.1 with ProjectID := n }, acc.2)
      | Except.ok none => acc
      | Except.error e => (acc.1, saveError acc.2 e)
    else
      match decodeString ("OpenstackVolume." ++ f) m.2 with
      | Except.ok (some s) =>
        if f = "volume_type" then ({ acc.1 with TypeName := s }, acc.2)
        else if f = "source" then ({ acc.1 with Source := s }, acc.2)
        else ({ acc.1 with Name := s }, acc.2)
      | Except.ok none => acc
      | Except.error e => (acc.1, saveError acc.2 e)

/-- The call `json.Unmarshal(data, &volume)` into an `OpenstackVolume`
holding `v`. -/
def Unmarshal_OpenstackVolume (data : Bytes) (v : OpenstackVolume) :
    OpenstackVolume × Option Error :=
  match data with
  | Bytes.invalid e => (v, some e)
  | Bytes.json JVal.null => (v, none)
  | Bytes.json (JVal.obj members) => members.foldl setOpenstackVolumeMember (v, none)
  | Bytes.json _ => (v, some "json: cannot unmarshal value into Go value of type main.OpenstackVolume")

end json

/-! ## The resource (`resource_gcore_volume_v1.go`) -/

variable {W : Type}

/-- Go `getVolumeData`: a new `Volume` from the volume parameters of the
configuration. -/
def getVolumeData (d : ResourceData) : Volume :=
  let name := d.name
  let size := d.size
  let typeName := d.type_name
  let imageID := d.image_id
  let snapshotID := d.snapshot_id
  let source := d.source
  let volumeData : Volume :=
    { Size := size, Source := source, Name := name, TypeName := "", ImageID := "", SnapshotID := "" }
  let volumeData := if imageID ≠ "" then { volumeData with ImageID := imageID } else volumeData
  let volumeData := if typeName ≠ "" then { volumeData with TypeName := typeName } else volumeData
  let volumeData := if snapshotID ≠ "" then { volumeData with SnapshotID := snapshotID } else volumeData
  volumeData

/-- Go `createVolumeRequestBody`: the JSON body of the create request. -/
def createVolumeRequestBody (d : ResourceData) : Except Error Bytes :=
  let volumeData := getVolumeData d
  match json.Marshal_Volume volumeData with
  | Except.error err => Except.error err
  | Except.ok body => Except.ok body

/-- Go `parseJSONVolume`: the volume and the error it returns. -/
def parseJSONVolume (env : Env W) (resp : Response) : Exec W (OpenstackVolume × Option Error) := do
  let volume : OpenstackVolume :=
    { Size := 0, RegionID := 0, ProjectID := 0, TypeName := "", Source := "", Name := "" }
  match ← ioutil.ReadAll env resp with
  | Except.error err => return (volume, some err)
  | Except.ok responseData =>
    return json.Unmarshal_OpenstackVolume responseData volume

/-- Go `getVolume`: the pointer (`none` is `nil`) and the error it returns. -/
def getVolume (env : Env W) (session : Session) (host : String) (projectID regionID : Int)
    (volumeID : String) (timeout : Int) : Exec W (Option OpenstackVolume × Option Error) := do
  match ← common.GetRequest env session
      (URL.ResourceV1URL host "volumes" projectID regionID volumeID) timeout with
  | Except.error err => return (none, some err)
  | Except.ok resp =>
  match ← common.CheckSuccessfulResponse env resp ("Can't find the volume " ++ volumeID) with
  | some err => return (none, some err)
  | none =>
  let (volume, err) ← parseJSONVolume env resp
  return (some volume, err)

/-- Go `ExtendVolume`: changes the volume size. -/
def ExtendVolume (env : Env W) (config : Config) (host : String) (projectID regionID : Int)
    (volumeID : String) (newSize : Int) : Exec W (Option Error) := do
  let bodyData : Size := { Size := newSize }
  match json.Marshal_Size bodyData with
  | Except.error err => return some err
  | Except.ok body =>
  match ← common.PostRequest env config.Session
      (URL.ExpandedResourceV1URL host "volumes" projectID regionID volumeID "extend") body
      config.Timeout with
  | Except.error err => return some err
  | Except.ok resp =>
  match ← common.CheckSuccessfulResponse env resp ("Extend volume " ++ volumeID ++ " failed") with
  | some err => return some err
  | none =>
  let (_, err) ← common.WaitForTasksInResponse env config resp volumeExtending
  match err with
  | some err => return some err
  | none => return none

/-- Go `RetypeVolume`: changes the volume type. -/
def RetypeVolume (env : Env W) (config : Config) (host : String) (projectID regionID : Int)
    (volumeID : String) (newType : String) : Exec W (Option Error) := do
  let bodyData : Type_ := { VolumeType := newType }
  match json.Marshal_Type bodyData with
  | Except.error err => return some err
  | Except.ok body =>
  match ← common.PostRequest env config.Session
      (URL.ExpandedResourceV1URL host "volumes" projectID regionID volumeID "retype") body
      config.Timeout with
  | Except.error err => return some err
  | Except.ok resp =>
  match ← common.CheckSuccessfulResponse env resp ("Retype volume " ++ volumeID ++ " failed") with
  | some err => return some err
  | none => return none

/-- Go `resourceVolumeRead`. -/
def resourceVolumeRead (env : Env W) (config : Config) : Exec W (Option Error) := do
  let session := config.Session
  let volumeID := (← Exec.getD).Id
  let contextMessage := "get a volume " ++ volumeID
  match ← common.GetProject env config contextMessage with
  | Except.error err => return some err
  | Except.ok projectID =>
  match ← common.GetRegion env config contextMessage with
  | Except.error err => return some err
  | Except.ok regionID =>
  let (volume, err) ← getVolume env session config.Host projectID regionID volumeID config.Timeout
  match err with
  | some err => return some err
  | none =>
  match volume with
  | none => Exec.panic "runtime error: invalid memory address or nil pointer dereference"
  | some volume =>
  Exec.modifyD (fun d => { d with size := volume.Size })
  Exec.modifyD (fun d => { d with region_id := volume.RegionID })
  Exec.modifyD (fun d => { d with project_id := volume.ProjectID })
  Exec.modifyD (fun d => { d with source := volume.Source })
  Exec.modifyD (fun d => { d with name := volume.Name })
  Exec.modifyD (fun d => { d with type_name := volume.TypeName })
  return none

/-- Go `resourceVolumeCreate`. -/
def resourceVolumeCreate (env : Env W) (config : Config) : Exec W (Option Error) := do
  let name := (← Exec.getD).name
  let contextMessage := "create a " ++ name ++ " volume"
  let session := config.Session
  match ← common.GetProject env config contextMessage with
  | Except.error err => return some err
  | Except.ok projectID =>
  match ← common.GetRegion env config contextMessage with
  | Except.error err => return some err
  | Except.ok regionID =>
  match createVolumeRequestBody (← Exec.getD) with
  | Except.error err => return some err
  | Except.ok body =>
  match ← common.PostRequest env session
      (URL.ResourcesV1URL config.Host "volumes" projectID regionID) body config.Timeout with
  | Except.error err => return some err
  | Except.ok resp =>
  match ← common.CheckSuccessfulResponse env resp ("Create volume " ++ name ++ " failed") with
  | some err => return some err
  | none =>
  let (taskData, err) ← common.WaitForTasksInResponse env config resp volumeCreating
  match taskData with
  | [] => Exec.panic "runtime error: index out of range [0] with length 0"
  | volumeData :: _ =>
  match err with
  | some err => return some err
  | none =>
  let result := env.mapstructureDecode volumeData
  match result.Volumes with
  | [] => Exec.panic "runtime error: index out of range [0] with length 0"
  | volumeID :: _ =>
  Exec.modifyD (fun d => { d with Id := volumeID })
  resourceVolumeRead env config

/-- Go `resourceVolumeUpdate`. -/
def resourceVolumeUpdate (env : Env W) (config : Config) : Exec W (Option Error) := do
  let newVolumeData := getVolumeData (← Exec.getD)
  let volumeID := (← Exec.getD).Id
  let session := config.Session
  let contextMessage := "update a volume " ++ volumeID
  match ← common.GetProject env config contextMessage with
  | Except.error err => return some err
  | Except.ok projectID =>
  match ← common.GetRegion env config contextMessage with
  | Except.error err => return some err
  | Except.ok regionID =>
  let (volumeData, err) ← getVolume env session config.Host projectID regionID volumeID config.Timeout
  match err with
  | some err => return some err
  | none =>
  match volumeData with
  | none => Exec.panic "runtime error: invalid memory address or nil pointer dereference"
  | some volumeData =>
  -- size
  let err ←
    if volumeData.Size ≠ newVolumeData.Size then
      ExtendVolume env config config.Host projectID regionID volumeID newVolumeData.Size
    else pure none
  match err with
  | some err => return some err
  | none =>
  -- type
  let err ←
    if volumeData.TypeName ≠ newVolumeData.TypeName then
      RetypeVolume env config config.Host projectID regionID volumeID newVolumeData.TypeName
    else pure none
  match err with
  | some err => return some err
  | none =>
  resourceVolumeRead env config

/-- Go `resourceVolumeDelete`. -/
def resourceVolumeDelete (env : Env W) (config : Config) : Exec W (Option Error) := do
  let session := config.Session
  let volumeID := (← Exec.getD).Id
  let contextMessage := "delete the " ++ volumeID ++ " volume"
  match ← common.GetProject env config contextMessage with
  | Except.error err => return some err
  | Except.ok projectID =>
  match ← common.GetRegion env config contextMessage with
  | Except.error err => return some err
  | Except.ok regionID =>
  match ← common.DeleteRequest env session
      (URL.ResourceV1URL config.Host "volumes" projectID regionID volumeID) config.Timeout with
  | Except.error err => return some err
  | Except.ok resp =>
  match ← common.CheckSuccessfulResponse env resp ("Delete volume " ++ volumeID ++ " failed") with
  | some err => return some err
  | none =>
  let (_, err) ← common.WaitForTasksInResponse env config resp volumeDeleting
  match err with
  | some err => return some err
  | none => return none

/-- The `Importer.State` function of `resourceVolumeV1`: the records it
returns and its error.  The parser yields integers for the project and the
region, the type of the `project_id` and `region_id` fields of the schema. -/
def resourceVolumeV1_Importer_State (env : Env W) : Exec W (List ResourceData × Option Error) := do
  match env.ImportStringParser (← Exec.getD).Id with
  | Except.error err => return ([], some err)
  | Except.ok (projectID, regionID, volumeID) =>
  Exec.modifyD (fun d => { d with project_id := projectID })
  Exec.modifyD (fun d => { d with region_id := regionID })
  Exec.modifyD (fun d => { d with Id := volumeID })
  return ([← Exec.getD], none)

/-! ## Observations on the recorded calls -/

/-- The timeout of a call to the task waiter. -/
@[simp]
def Event.waiterTimeout : Event → Option Int
  | Event.WaitForTasksInResponse _ timeout _ => some timeout
  | _ => none

/-- The context string of a call to the success check. -/
@[simp]
def Event.checkMessage : Event → Option String
  | Event.CheckSuccessfulResponse _ message _ => some message
  | _ => none

/-- The URL and the body of a POST request. -/
@[simp]
def Event.postRequest : Event → Option (URL × Bytes)
  | Event.PostRequest url body _ _ => some (url, body)
  | _ => none

/-- The URL of a DELETE request. -/
@[simp]
def Event.deleteRequest : Event → Option URL
  | Event.DeleteRequest url _ _ => some url
  | _ => none

/-- The timeouts handed to the task waiter, one per invocation, in order. -/
def waiterTimeouts (events : List Event) : List Int :=
  events.filterMap Event.waiterTimeout

/-- The context strings handed to the success check, one per invocation. -/
def checkMessages (events : List Event) : List String :=
  events.filterMap Event.checkMessage

/-- The POST requests issued: URL and body, in order. -/
def postRequests (events : List Event) : List (URL × Bytes) :=
  events.filterMap Event.postRequest

/-- The DELETE requests issued: their URLs, in order. -/
def deleteRequests (events : List Event) : List URL :=
  events.filterMap Event.deleteRequest

/-- Whether a URL is the action endpoint `action` of a volume. -/
def isVolumeAction (action : String) : URL → Bool
  | URL.ExpandedResourceV1URL _ name _ _ _ a => name == "volumes" && a == action
  | _ => false

/-- The number of Extend calls: POSTs to the `extend` action endpoint. -/
def extendCalls (events : List Event) : Nat :=
  ((postRequests events).filter (fun p => isVolumeAction "extend" p.1)).length

/-- The number of Retype calls: POSTs to the `retype` action endpoint. -/
def retypeCalls (events : List Event) : Nat :=
  ((postRequests events).filter (fun p => isVolumeAction "retype" p.1)).length

/-- The number of mutating requests (POST and DELETE) issued. -/
def mutatingRequests (events : List Event) : Nat :=
  (postRequests events).length + (deleteRequests events).length

/-- Whether a recorded call succeeded: no error in its answer. -/
def Event.succeeded : Event → Bool
  | Event.GetProject _ (Except.ok _) => true
  | Event.GetRegion _ (Except.ok _) => true
  | Event.PostRequest _ _ _ (Except.ok _) => true
  | Event.DeleteRequest _ _ (Except.ok _) => true
  | Event.GetRequest _ _ (Except.ok _) => true
  | Event.CheckSuccessfulResponse _ _ none => true
  | Event.WaitForTasksInResponse _ _ (_, none) => true
  | Event.ReadAll _ (Except.ok _) => true
  | _ => false

/-- Whether a recorded call is a task wait that reported success. -/
@[simp]
def Event.waiterSucceeded : Event → Bool
  | Event.WaitForTasksInResponse _ _ (_, none) => true
  | _ => false

/-- Whether the task waiter reported success in the recorded calls. -/
def waiterSucceeded (events : List Event) : Bool :=
  events.any Event.waiterSucceeded

/-! ## A provider stub

Collaborators with fixed answers, used to exhibit concrete runs. -/

/-- The fixed answers of the stub. -/
structure Stub where
  project : Except Error Int
  region : Except Error Int
  post : Except Error Response
  delete : Except Error Response
  get : Except Error Response
  tasks : List JVal × Option Error
  body : Except Error Bytes
  imports : List (String × (Int × Int × String))

/-- The volume IDs under the key `volumes` of a task result. -/
def stubDecode (v : JVal) : VolumeIds :=
  match v with
  | JVal.obj members =>
    match members.lookup "volumes" with
    | some (JVal.arr items) =>
      { Volumes := items.filterMap (fun x => match x with
          | JVal.str id => some id
          | _ => none) }
    | _ => { Volumes := [] }
  | _ => { Volumes := [] }

/-- The stub as an environment without state: the success check accepts the
status codes 200 to 299. -/
def Stub.env (p : Stub) : Env Unit where
  GetProject := fun _ _ _ _ => (p.project, ())
  GetRegion := fun _ _ _ _ => (p.region, ())
  PostRequest := fun _ _ _ _ _ => (p.post, ())
  DeleteRequest := fun _ _ _ _ => (p.delete, ())
  GetRequest := fun _ _ _ _ => (p.get, ())
  CheckSuccessfulResponse := fun _ resp message =>
    (if 200 ≤ resp.StatusCode ∧ resp.StatusCode < 300 then none
     else some (message ++ ": unexpected status"), ())
  WaitForTasksInResponse := fun _ _ _ _ => (p.tasks, ())
  ReadAll := fun _ _ => (p.body, ())
  ImportStringParser := fun id =>
    match p.imports.lookup id with
    | some r => Except.ok r
    | none => Except.error ("Failed import: wrong input id: " ++ id)
  mapstructureDecode := stubDecode

/-- A configuration for the concrete runs. -/
def stubConfig : Config :=
  { Session := { token := "t" }, Host := "https://api.example", Timeout := 30 }

/-- A record for the concrete runs: volume `vol-1` of 20 units. -/
def stubRecord : ResourceData :=
  { Id := "vol-1", project_id := 1, region_id := 2, project_name := "", region_name := "",
    name := "test-vol", source := "new-volume", size := 20, type_name := "standard",
    image_id := "", snapshot_id := "" }

/-- The JSON the stub provider answers a GET with: a volume of 10 units. -/
def stubVolumeBody : Bytes :=
  Bytes.json (JVal.obj [("size", JVal.num 10), ("region_id", JVal.num 2), ("project_id", JVal.num 1),
    ("volume_type", JVal.str "standard"), ("source", JVal.str "new-volume"), ("name", JVal.str "test-vol")])

/-- The observed volume the stub provider answers a GET with. -/
def stubObserved : OpenstackVolume :=
  { Size := 10, RegionID := 2, ProjectID := 1, TypeName := "standard",
    Source := "new-volume", Name := "test-vol" }

/-- A stub provider on which every call succeeds; the creation task yields
the volume IDs `vol-9` and `vol-10`. -/
def stubOk : Stub :=
  { project := Except.ok 1, region := Except.ok 2,
    post := Except.ok { StatusCode := 201, Body := 0 },
    delete := Except.ok { StatusCode := 200, Body := 1 },
    get := Except.ok { StatusCode := 200, Body := 2 },
    tasks := ([JVal.obj [("volumes", JVal.arr [JVal.str "vol-9", JVal.str "vol-10"])]], none),
    body := Except.ok stubVolumeBody,
    imports := [("1:2:vol-abc", (1, 2, "vol-abc"))] }

/-- A stub provider that answers the POST and the DELETE with status 500. -/
def stubRejecting : Stub :=
  { stubOk with
    post := Except.ok { StatusCode := 500, Body := 0 },
    delete := Except.ok { StatusCode := 500, Body := 1 } }

/-- A stub provider that answers the GET with status 404. -/
def stubReadFails : Stub :=
  { stubOk with get := Except.ok { StatusCode := 404, Body := 2 } }

/-- A stub provider whose task waiter times out and returns no task result. -/
def stubWaiterFails : Stub :=
  { stubOk with tasks := ([], some "task timeout") }

/-- A stub provider whose task waiter reports a failed task together with a
task result. -/
def stubTaskFails : Stub :=
  { stubOk with tasks := ([JVal.null], some "task failed") }

/-- A stub provider on which the project cannot be resolved. -/
def stubNoProject : Stub :=
  { stubOk with project := Except.error "project is not set" }

/-- A stub provider on which the region cannot be resolved. -/
def stubNoRegion : Stub :=
  { stubOk with region := Except.error "region is not set" }

/-- A record that has no identity yet, as Create receives it. -/
def stubNewRecord : ResourceData :=
  { stubRecord with Id := "" }

/-- A record holding an import identifier, as the importer receives it. -/
def stubImportRecord : ResourceData :=
  { stubRecord with Id := "1:2:vol-abc", project_id := 0, region_id := 0 }

/-! ## Lemmas on execution and on the recorded calls -/

@[simp]
theorem Exec.bind_eq {W : Type} {α β : Type} (x : Exec W α) (f : α → Exec W β) :
    (x >>= f) = Exec.bind x f := rfl

@[simp]
theorem Exec.pure_eq {W : Type} {α : Type} (a : α) : (Pure.pure a : Exec W α) = Exec.pure a := rfl

@[simp]
theorem waiterTimeouts_nil : waiterTimeouts [] = [] := rfl

@[simp]
theorem waiterTimeouts_cons (e : Event) (l : List Event) :
    waiterTimeouts (e :: l) = e.waiterTimeout.toList ++ waiterTimeouts l := by
  cases e <;> rfl

@[simp]
theorem waiterTimeouts_append (a b : List Event) :
    waiterTimeouts (a ++ b) = waiterTimeouts a ++ waiterTimeouts b := by
  simp [waiterTimeouts]

@[simp]
theorem checkMessages_nil : checkMessages [] = [] := rfl

@[simp]
theorem checkMessages_cons (e : Event) (l : List Event) :
    checkMessages (e :: l) = e.checkMessage.toList ++ checkMessages l := by
  cases e <;> rfl

@[simp]
theorem checkMessages_append (a b : List Event) :
    checkMessages (a ++ b) = checkMessages a ++ checkMessages b := by
  simp [checkMessages]

@[simp]
theorem postRequests_nil : postRequests [] = [] := rfl

@[simp]
theorem postRequests_cons (e : Event) (l : List Event) :
    postRequests (e :: l) = e.postRequest.toList ++ postRequests l := by
  cases e <;> rfl

@[simp]
theorem postRequests_append (a b : List Event) :
    postRequests (a ++ b) = postRequests a ++ postRequests b := by
  simp [postRequests]

@[simp]
theorem deleteRequests_nil : deleteRequests [] = [] := rfl

@[simp]
theorem deleteRequests_cons (e : Event) (l : List Event) :
    deleteRequests (e :: l) = e.deleteRequest.toList ++ deleteRequests l := by
  cases e <;> rfl

@[simp]
theorem deleteRequests_append (a b : List Event) :
    deleteRequests (a ++ b) = deleteRequests a ++ deleteRequests b := by
  simp [deleteRequests]

/-! ## Lemmas on the fetch and on Read -/

/-- The fetch leaves the record alone and issues no POST, no DELETE and no task wait. -/
theorem getVolume_frame (env : Env W) (session : Session) (host : String) (projectID regionID : Int)
    (volumeID : String) (timeout : Int) (s : St W) :
    (getVolume env session host projectID regionID volumeID timeout s).st.d = s.d ∧
    waiterTimeouts (getVolume env session host projectID regionID volumeID timeout s).events = [] ∧
    postRequests (getVolume env session host projectID regionID volumeID timeout s).events = [] ∧
    deleteRequests (getVolume env session host projectID regionID volumeID timeout s).events = [] := by
  rcases h1 : env.GetRequest s.world session
    (URL.ResourceV1URL host "volumes" projectID regionID volumeID) timeout with ⟨r1, w1⟩
  cases r1 with
  | error e => simp [getVolume, h1]
  | ok resp =>
    rcases h2 : env.CheckSuccessfulResponse w1 resp ("Can't find the volume " ++ volumeID) with ⟨r2, w2⟩
    cases r2 with
    | some e => simp [getVolume, h1, h2]
    | none =>
      rcases h3 : env.ReadAll w2 resp with ⟨r3, w3⟩
      cases r3 with
      | error e => simp [getVolume, parseJSONVolume, h1, h2, h3]
      | ok b => simp [getVolume, parseJSONVolume, h1, h2, h3]

/-- The fetch never panics, and when it returns no error it returns a volume. -/
theorem getVolume_ret (env : Env W) (session : Session) (host : String) (projectID regionID : Int)
    (volumeID : String) (timeout : Int) (s : St W) :
    ∃ v err, (getVolume env session host projectID regionID volumeID timeout s).ret = Outcome.val (v, err) ∧
      (err = none → ∃ volume, v = some volume) := by
  rcases h1 : env.GetRequest s.world session
    (URL.ResourceV1URL host "volumes" projectID regionID volumeID) timeout with ⟨r1, w1⟩
  cases r1 with
  | error e => simp [getVolume, h1]; exact ⟨_, _, ⟨rfl, rfl⟩, by simp⟩
  | ok resp =>
    rcases h2 : env.CheckSuccessfulResponse w1 resp ("Can't find the volume " ++ volumeID) with ⟨r2, w2⟩
    cases r2 with
    | some e => simp [getVolume, h1, h2]; exact ⟨_, _, ⟨rfl, rfl⟩, by simp⟩
    | none =>
      rcases h3 : env.ReadAll w2 resp with ⟨r3, w3⟩
      cases r3 with
      | error e => simp [getVolume, parseJSONVolume, h1, h2, h3]; exact ⟨_, _, ⟨rfl, rfl⟩, by simp⟩
      | ok b => simp [getVolume, parseJSONVolume, h1, h2, h3]; exact ⟨_, _, ⟨rfl, rfl⟩, by simp⟩

/-- Read keeps the identity and issues no POST, no DELETE and no task wait. -/
theorem resourceVolumeRead_frame (env : Env W) (config : Config) (s : St W) :
    (resourceVolumeRead env config s).st.d.Id = s.d.Id ∧
    waiterTimeouts (resourceVolumeRead env config s).events = [] ∧
    postRequests (resourceVolumeRead env config s).events = [] ∧
    deleteRequests (resourceVolumeRead env config s).events = [] := by
  rcases h1 : env.GetProject s.world config s.d ("get a volume " ++ s.d.Id) with ⟨r1, w1⟩
  cases r1 with
  | error e => simp [resourceVolumeRead, h1]
  | ok projectID =>
    rcases h2 : env.GetRegion w1 config s.d ("get a volume " ++ s.d.Id) with ⟨r2, w2⟩
    cases r2 with
    | error e => simp [resourceVolumeRead, h1, h2]
    | ok regionID =>
      obtain ⟨hd, hw, hp, hdel⟩ := getVolume_frame env config.Session config.Host
        projectID regionID s.d.Id config.Timeout ⟨w2, s.d⟩
      obtain ⟨v, err, hret, hv⟩ := getVolume_ret env config.Session config.Host
        projectID regionID s.d.Id config.Timeout ⟨w2, s.d⟩
      cases err with
      | some e => simp [resourceVolumeRead, h1, h2, hret, hd, hw, hp, hdel]
      | none =>
        obtain ⟨volume, rfl⟩ := hv rfl
        simp [resourceVolumeRead, h1, h2, hret, hd, hw, hp, hdel]

/-- Read never panics, and when it returns an error it leaves the record as it was. -/
theorem resourceVolumeRead_ret (env : Env W) (config : Config) (s : St W) :
    ∃ err, (resourceVolumeRead env config s).ret = Outcome.val err ∧
      (err ≠ none → (resourceVolumeRead env config s).st.d = s.d) := by
  rcases h1 : env.GetProject s.world config s.d ("get a volume " ++ s.d.Id) with ⟨r1, w1⟩
  cases r1 with
  | error e => simp [resourceVolumeRead, h1]
  | ok projectID =>
    rcases h2 : env.GetRegion w1 config s.d ("get a volume " ++ s.d.Id) with ⟨r2, w2⟩
    cases r2 with
    | error e => simp [resourceVolumeRead, h1, h2]
    | ok regionID =>
      obtain ⟨hd, hw, hp, hdel⟩ := getVolume_frame env config.Session config.Host
        projectID regionID s.d.Id config.Timeout ⟨w2, s.d⟩
      obtain ⟨v, err, hret, hv⟩ := getVolume_ret env config.Session config.Host
        projectID regionID s.d.Id config.Timeout ⟨w2, s.d⟩
      cases err with
      | some e => simp [resourceVolumeRead, h1, h2, hret, hd, hw, hp, hdel]
      | none =>
        obtain ⟨volume, rfl⟩ := hv rfl
        simp [resourceVolumeRead, h1, h2, hret, hd, hw, hp, hdel]

/-- Extend leaves the record alone, issues one POST to the `extend` endpoint and no
DELETE; it never panics, and it returns no error when all its calls succeed. -/
theorem ExtendVolume_spec (env : Env W) (config : Config) (host : String) (projectID regionID : Int)
    (volumeID : String) (newSize : Int) (s : St W) :
    (ExtendVolume env config host projectID regionID volumeID newSize s).st.d = s.d ∧
    postRequests (ExtendVolume env config host projectID regionID volumeID newSize s).events
      = [(URL.ExpandedResourceV1URL host "volumes" projectID regionID volumeID "extend",
          Bytes.json (JVal.obj [("size", JVal.num newSize)]))] ∧
    deleteRequests (ExtendVolume env config host projectID regionID volumeID newSize s).events = [] ∧
    ∃ err, (ExtendVolume env config host projectID regionID volumeID newSize s).ret = Outcome.val err ∧
      ((∀ ev ∈ (ExtendVolume env config host projectID regionID volumeID newSize s).events,
          ev.succeeded = true) → err = none) := by
  rcases h1 : env.PostRequest s.world config.Session
    (URL.ExpandedResourceV1URL host "volumes" projectID regionID volumeID "extend")
    (Bytes.json (JVal.obj [("size", JVal.num newSize)])) config.Timeout with ⟨r1, w1⟩
  cases r1 with
  | error e => simp [ExtendVolume, json.Marshal_Size, json.encodeSize, Event.succeeded, h1]
  | ok resp =>
    rcases h2 : env.CheckSuccessfulResponse w1 resp ("Extend volume " ++ volumeID ++ " failed") with ⟨r2, w2⟩
    cases r2 with
    | some e => simp [ExtendVolume, json.Marshal_Size, json.encodeSize, Event.succeeded, h1, h2]
    | none =>
      rcases h3 : env.WaitForTasksInResponse w2 config resp 1200 with ⟨⟨ts, r3⟩, w3⟩
      cases r3 <;> simp [ExtendVolume, json.Marshal_Size, json.encodeSize, Event.succeeded, volumeExtending, h1, h2, h3]

/-- Retype leaves the record alone, issues one POST to the `retype` endpoint, no
DELETE and no task wait; it never panics, and it returns no error when all its
calls succeed. -/
theorem RetypeVolume_spec (env : Env W) (config : Config) (host : String) (projectID regionID : Int)
    (volumeID : String) (newType : String) (s : St W) :
    (RetypeVolume env config host projectID regionID volumeID newType s).st.d = s.d ∧
    postRequests (RetypeVolume env config host projectID regionID volumeID newType s).events
      = [(URL.ExpandedResourceV1URL host "volumes" projectID regionID volumeID "retype",
          Bytes.json (JVal.obj [("volume_type", JVal.str newType)]))] ∧
    deleteRequests (RetypeVolume env config host projectID regionID volumeID newType s).events = [] ∧
    waiterTimeouts (RetypeVolume env config host projectID regionID volumeID newType s).events = [] ∧
    ∃ err, (RetypeVolume env config host projectID regionID volumeID newType s).ret = Outcome.val err ∧
      ((∀ ev ∈ (RetypeVolume env config host projectID regionID volumeID newType s).events,
          ev.succeeded = true) → err = none) := by
  rcases h1 : env.PostRequest s.world config.Session
    (URL.ExpandedResourceV1URL host "volumes" projectID regionID volumeID "retype")
    (Bytes.json (JVal.obj [("volume_type", JVal.str newType)])) config.Timeout with ⟨r1, w1⟩
  cases r1 with
  | error e => simp [RetypeVolume, json.Marshal_Type, json.encodeType, Event.succeeded, h1]
  | ok resp =>
    rcases h2 : env.CheckSuccessfulResponse w1 resp ("Retype volume " ++ volumeID ++ " failed") with ⟨r2, w2⟩
    cases r2 <;> simp [RetypeVolume, json.Marshal_Type, json.encodeType, Event.succeeded, h1, h2]

/-- Every task wait of Create is given the bound 1200. -/
theorem resourceVolumeCreate_timeouts (env : Env W) (config : Config) (s : St W) :
    ∀ t ∈ waiterTimeouts (resourceVolumeCreate env config s).events, t = 1200 := by
  rcases h1 : env.GetProject s.world config s.d ("create a " ++ s.d.name ++ " volume") with ⟨r1, w1⟩
  cases r1 with
  | error e => simp [resourceVolumeCreate, h1]
  | ok projectID =>
    rcases h2 : env.GetRegion w1 config s.d ("create a " ++ s.d.name ++ " volume") with ⟨r2, w2⟩
    cases r2 with
    | error e => simp [resourceVolumeCreate, h1, h2]
    | ok regionID =>
      rcases h3 : env.PostRequest w2 config.Session
        (URL.ResourcesV1URL config.Host "volumes" projectID regionID)
        (Bytes.json (json.encodeVolume (getVolumeData s.d))) config.Timeout with ⟨r3, w3⟩
      cases r3 with
      | error e =>
        simp [resourceVolumeCreate, createVolumeRequestBody, json.Marshal_Volume, h1, h2, h3]
      | ok resp =>
        rcases h4 : env.CheckSuccessfulResponse w3 resp ("Create volume " ++ s.d.name ++ " failed")
          with ⟨r4, w4⟩
        cases r4 with
        | some e =>
          simp [resourceVolumeCreate, createVolumeRequestBody, json.Marshal_Volume, h1, h2, h3, h4]
        | none =>
          rcases h5 : env.WaitForTasksInResponse w4 config resp 1200 with ⟨⟨ts, r5⟩, w5⟩
          cases ts with
          | nil =>
            simp [resourceVolumeCreate, createVolumeRequestBody, json.Marshal_Volume, volumeCreating,
              h1, h2, h3, h4, h5]
          | cons task rest =>
            cases r5 with
            | some e =>
              simp [resourceVolumeCreate, createVolumeRequestBody, json.Marshal_Volume, volumeCreating,
                h1, h2, h3, h4, h5]
            | none =>
              cases h6 : (env.mapstructureDecode task).Volumes with
              | nil =>
                simp [resourceVolumeCreate, createVolumeRequestBody, json.Marshal_Volume, volumeCreating,
                  h1, h2, h3, h4, h5, h6]
              | cons volumeID others =>
                have hw := (resourceVolumeRead_frame env config
                  { world := w5, d := { s.d with Id := volumeID } }).2.1
                dsimp only at hw
                simp [resourceVolumeCreate, createVolumeRequestBody, json.Marshal_Volume, volumeCreating,
                  h1, h2, h3, h4, h5, h6, hw]

/-- Delete leaves the record alone, gives every task wait the bound 1200, and sends
its DELETE to the volume the record names. -/
theorem resourceVolumeDelete_frame (env : Env W) (config : Config) (s : St W) :
    (resourceVolumeDelete env config s).st.d = s.d ∧
    (∀ t ∈ waiterTimeouts (resourceVolumeDelete env config s).events, t = 1200) ∧
    ∀ url ∈ deleteRequests (resourceVolumeDelete env config s).events,
      ∃ projectID regionID, url = URL.ResourceV1URL config.Host "volumes" projectID regionID s.d.Id := by
  rcases h1 : env.GetProject s.world config s.d ("delete the " ++ s.d.Id ++ " volume") with ⟨r1, w1⟩
  cases r1 with
  | error e => simp [resourceVolumeDelete, h1]
  | ok projectID =>
    rcases h2 : env.GetRegion w1 config s.d ("delete the " ++ s.d.Id ++ " volume") with ⟨r2, w2⟩
    cases r2 with
    | error e => simp [resourceVolumeDelete, h1, h2]
    | ok regionID =>
      rcases h3 : env.DeleteRequest w2 config.Session
        (URL.ResourceV1URL config.Host "volumes" projectID regionID s.d.Id) config.Timeout with ⟨r3, w3⟩
      cases r3 with
      | error e => simp [resourceVolumeDelete, h1, h2, h3]
      | ok resp =>
        rcases h4 : env.CheckSuccessfulResponse w3 resp ("Delete volume " ++ s.d.Id ++ " failed") with ⟨r4, w4⟩
        cases r4 with
        | some e => simp [resourceVolumeDelete, h1, h2, h3, h4]
        | none =>
          rcases h5 : env.WaitForTasksInResponse w4 config resp 1200 with ⟨⟨ts, r5⟩, w5⟩
          cases r5 <;> simp [resourceVolumeDelete, volumeDeleting, h1, h2, h3, h4, h5]

/-- The volume built from the configuration carries the configured value of every
field. -/
theorem getVolumeData_eq (d : ResourceData) :
    getVolumeData d =
      { Size := d.size, Source := d.source, Name := d.name, TypeName := d.type_name,
        ImageID := d.image_id, SnapshotID := d.snapshot_id } := by
  by_cases h1 : d.image_id = "" <;> by_cases h2 : d.type_name = "" <;>
    by_cases h3 : d.snapshot_id = "" <;> simp [getVolumeData, h1, h2, h3]

/-- Without a task wait, no task wait succeeded. -/
theorem waiterSucceeded_of_no_wait (events : List Event) (h : waiterTimeouts events = []) :
    waiterSucceeded events = false := by
  induction events with
  | nil => rfl
  | cons e l ih =>
    cases e <;> simp_all [waiterSucceeded]

/-! ## The claims -/

/-- Claim C1. When the mutating request of Create, Delete or Extend returns a
response that the success check rejects, the operation returns exactly the
error of the success check, the task waiter is not invoked, and the context
string handed to the success check is `Create volume <name> failed`,
`Delete volume <id> failed` or `Extend volume <id> failed`. -/
theorem rejected_response_aborts_before_waiter (env : Env W) (config : Config) (s : St W) :
    (∀ projectID regionID resp e w1 w2 w3 w4,
      env.GetProject s.world config s.d ("create a " ++ s.d.name ++ " volume") = (Except.ok projectID, w1) →
      env.GetRegion w1 config s.d ("create a " ++ s.d.name ++ " volume") = (Except.ok regionID, w2) →
      env.PostRequest w2 config.Session (URL.ResourcesV1URL config.Host "volumes" projectID regionID)
        (Bytes.json (json.encodeVolume (getVolumeData s.d))) config.Timeout = (Except.ok resp, w3) →
      env.CheckSuccessfulResponse w3 resp ("Create volume " ++ s.d.name ++ " failed") = (some e, w4) →
      (resourceVolumeCreate env config s).ret = Outcome.val (some e) ∧
      waiterTimeouts (resourceVolumeCreate env config s).events = [] ∧
      checkMessages (resourceVolumeCreate env config s).events
        = ["Create volume " ++ s.d.name ++ " failed"]) ∧
    (∀ projectID regionID resp e w1 w2 w3 w4,
      env.GetProject s.world config s.d ("delete the " ++ s.d.Id ++ " volume") = (Except.ok projectID, w1) →
      env.GetRegion w1 config s.d ("delete the " ++ s.d.Id ++ " volume") = (Except.ok regionID, w2) →
      env.DeleteRequest w2 config.Session (URL.ResourceV1URL config.Host "volumes" projectID regionID s.d.Id)
        config.Timeout = (Except.ok resp, w3) →
      env.CheckSuccessfulResponse w3 resp ("Delete volume " ++ s.d.Id ++ " failed") = (some e, w4) →
      (resourceVolumeDelete env config s).ret = Outcome.val (some e) ∧
      waiterTimeouts (resourceVolumeDelete env config s).events = [] ∧
      checkMessages (resourceVolumeDelete env config s).events
        = ["Delete volume " ++ s.d.Id ++ " failed"]) ∧
    (∀ host projectID regionID volumeID newSize resp e w1 w2,
      env.PostRequest s.world config.Session
        (URL.ExpandedResourceV1URL host "volumes" projectID regionID volumeID "extend")
        (Bytes.json (json.encodeSize { Size := newSize })) config.Timeout = (Except.ok resp, w1) →
      env.CheckSuccessfulResponse w1 resp ("Extend volume " ++ volumeID ++ " failed") = (some e, w2) →
      (ExtendVolume env config host projectID regionID volumeID newSize s).ret = Outcome.val (some e) ∧
      waiterTimeouts (ExtendVolume env config host projectID regionID volumeID newSize s).events = [] ∧
      checkMessages (ExtendVolume env config host projectID regionID volumeID newSize s).events
        = ["Extend volume " ++ volumeID ++ " failed"]) := by
  refine ⟨?_, ?_, ?_⟩
  · intro projectID regionID resp e w1 w2 w3 w4 h1 h2 h3 h4
    simp [resourceVolumeCreate, createVolumeRequestBody, json.Marshal_Volume, h1, h2, h3, h4]
  · intro projectID regionID resp e w1 w2 w3 w4 h1 h2 h3 h4
    simp [resourceVolumeDelete, h1, h2, h3, h4]
  · intro host projectID regionID volumeID newSize resp e w1 w2 h1 h2
    simp [ExtendVolume, json.Marshal_Size, h1, h2]

/-- Claim C1, on the stub provider that answers status 500: Create, Delete
and Extend return the error of the success check without waiting. -/
theorem rejected_response_aborts_before_waiter_witness :
    (stubRejecting.env.CheckSuccessfulResponse () { StatusCode := 500, Body := 0 }
        "Create volume test-vol failed" = (some "Create volume test-vol failed: unexpected status", ()) ∧
      (resourceVolumeCreate stubRejecting.env stubConfig { world := (), d := stubRecord }).ret
        = Outcome.val (some "Create volume test-vol failed: unexpected status") ∧
      waiterTimeouts
        (resourceVolumeCreate stubRejecting.env stubConfig { world := (), d := stubRecord }).events = [] ∧
      checkMessages
        (resourceVolumeCreate stubRejecting.env stubConfig { world := (), d := stubRecord }).events
        = ["Create volume test-vol failed"]) ∧
    (stubRejecting.env.CheckSuccessfulResponse () { StatusCode := 500, Body := 1 }
        "Delete volume vol-1 failed" = (some "Delete volume vol-1 failed: unexpected status", ()) ∧
      (resourceVolumeDelete stubRejecting.env stubConfig { world := (), d := stubRecord }).ret
        = Outcome.val (some "Delete volume vol-1 failed: unexpected status") ∧
      waiterTimeouts
        (resourceVolumeDelete stubRejecting.env stubConfig { world := (), d := stubRecord }).events = [] ∧
      checkMessages
        (resourceVolumeDelete stubRejecting.env stubConfig { world := (), d := stubRecord }).events
        = ["Delete volume vol-1 failed"]) ∧
    (stubRejecting.env.CheckSuccessfulResponse () { StatusCode := 500, Body := 0 }
        "Extend volume vol-1 failed" = (some "Extend volume vol-1 failed: unexpected status", ()) ∧
      (ExtendVolume stubRejecting.env stubConfig "https://api.example" 1 2 "vol-1" 30
        { world := (), d := stubRecord }).ret
        = Outcome.val (some "Extend volume vol-1 failed: unexpected status") ∧
      waiterTimeouts (ExtendVolume stubRejecting.env stubConfig "https://api.example" 1 2 "vol-1" 30
        { world := (), d := stubRecord }).events = [] ∧
      checkMessages (ExtendVolume stubRejecting.env stubConfig "https://api.example" 1 2 "vol-1" 30
        { world := (), d := stubRecord }).events = ["Extend volume vol-1 failed"]) :=
  ⟨⟨rfl, (rejected_response_aborts_before_waiter stubRejecting.env stubConfig
      { world := (), d := stubRecord }).1 1 2 { StatusCode := 500, Body := 0 }
      "Create volume test-vol failed: unexpected status" () () () () rfl rfl rfl rfl⟩,
   ⟨rfl, (rejected_response_aborts_before_waiter stubRejecting.env stubConfig
      { world := (), d := stubRecord }).2.1 1 2 { StatusCode := 500, Body := 1 }
      "Delete volume vol-1 failed: unexpected status" () () () () rfl rfl rfl rfl⟩,
   ⟨rfl, (rejected_response_aborts_before_waiter stubRejecting.env stubConfig
      { world := (), d := stubRecord }).2.2 "https://api.example" 1 2 "vol-1" 30
      { StatusCode := 500, Body := 0 }
      "Extend volume vol-1 failed: unexpected status" () () rfl rfl⟩⟩

/-- Claim C2. When scope resolution, the initial fetch and every call issued
succeed, Update issues one Extend call if the desired size differs from the
observed size and none otherwise, one Retype call if the desired type differs
from the observed type and none otherwise, and no other mutating request:
the POST requests of the run are exactly those two, each when needed, and
there is no DELETE. -/
theorem update_issues_extend_and_retype_as_needed (env : Env W) (config : Config) (s : St W)
    (projectID regionID : Int) (observed : OpenstackVolume) (w1 w2 : W)
    (hProject : env.GetProject s.world config s.d ("update a volume " ++ s.d.Id)
      = (Except.ok projectID, w1))
    (hRegion : env.GetRegion w1 config s.d ("update a volume " ++ s.d.Id)
      = (Except.ok regionID, w2))
    (hFetch : (getVolume env config.Session config.Host projectID regionID s.d.Id config.Timeout
      { world := w2, d := s.d }).ret = Outcome.val (some observed, none))
    (hAll : ∀ ev ∈ (resourceVolumeUpdate env config s).events, ev.succeeded = true) :
    postRequests (resourceVolumeUpdate env config s).events
      = (if observed.Size ≠ s.d.size then
          [(URL.ExpandedResourceV1URL config.Host "volumes" projectID regionID s.d.Id "extend",
            Bytes.json (JVal.obj [("size", JVal.num s.d.size)]))]
         else [])
        ++ (if observed.TypeName ≠ s.d.type_name then
          [(URL.ExpandedResourceV1URL config.Host "volumes" projectID regionID s.d.Id "retype",
            Bytes.json (JVal.obj [("volume_type", JVal.str s.d.type_name)]))]
         else []) ∧
    deleteRequests (resourceVolumeUpdate env config s).events = [] ∧
    extendCalls (resourceVolumeUpdate env config s).events
      = (if observed.Size ≠ s.d.size then 1 else 0) ∧
    retypeCalls (resourceVolumeUpdate env config s).events
      = (if observed.TypeName ≠ s.d.type_name then 1 else 0) ∧
    mutatingRequests (resourceVolumeUpdate env config s).events
      = (if observed.Size ≠ s.d.size then 1 else 0)
        + (if observed.TypeName ≠ s.d.type_name then 1 else 0) := by
  obtain ⟨hgd, -, hgp, hgdel⟩ := getVolume_frame env config.Session config.Host projectID regionID
    s.d.Id config.Timeout { world := w2, d := s.d }
  dsimp only at hgd
  generalize hg : getVolume env config.Session config.Host projectID regionID s.d.Id config.Timeout
    { world := w2, d := s.d } = g at hFetch hgd hgp hgdel
  by_cases hs : observed.Size = s.d.size <;> by_cases ht : observed.TypeName = s.d.type_name
  · obtain ⟨-, -, hrp, hrdel⟩ := resourceVolumeRead_frame env config g.st
    simp [resourceVolumeUpdate, getVolumeData_eq, hProject, hRegion, hg, hFetch, hs, ht,
      extendCalls, retypeCalls, mutatingRequests, hgp, hgdel, hrp, hrdel]
  · obtain ⟨hyd, hyp, hydel, -, err, hyret, hysucc⟩ :=
      RetypeVolume_spec env config config.Host projectID regionID s.d.Id s.d.type_name g.st
    generalize hy : RetypeVolume env config config.Host projectID regionID s.d.Id s.d.type_name g.st = y
      at hyd hyp hydel hyret hysucc
    obtain ⟨-, -, hrp, hrdel⟩ := resourceVolumeRead_frame env config y.st
    simp [resourceVolumeUpdate, getVolumeData_eq, hProject, hRegion, hg, hFetch, hs, ht, hy, hyret] at hAll ⊢
    have herr : err = none := hysucc (fun ev hev => hAll.2.2 ev (Or.inr (Or.inl hev)))
    subst herr
    simp [extendCalls, retypeCalls, mutatingRequests, hgp, hgdel, hrp, hrdel, hyp, hydel,
      isVolumeAction]
  · obtain ⟨hxd, hxp, hxdel, err, hxret, hxsucc⟩ :=
      ExtendVolume_spec env config config.Host projectID regionID s.d.Id s.d.size g.st
    generalize hx : ExtendVolume env config config.Host projectID regionID s.d.Id s.d.size g.st = x
      at hxd hxp hxdel hxret hxsucc
    obtain ⟨-, -, hrp, hrdel⟩ := resourceVolumeRead_frame env config x.st
    simp [resourceVolumeUpdate, getVolumeData_eq, hProject, hRegion, hg, hFetch, hs, ht, hx, hxret] at hAll ⊢
    obtain ⟨-, -, hAll⟩ := hAll
    have herr : err = none := hxsucc (fun ev hev => hAll ev (Or.inr (Or.inl hev)))
    subst herr
    simp [extendCalls, retypeCalls, mutatingRequests, hgp, hgdel, hrp, hrdel, hxp, hxdel,
      isVolumeAction]
  · obtain ⟨hxd, hxp, hxdel, err, hxret, hxsucc⟩ :=
      ExtendVolume_spec env config config.Host projectID regionID s.d.Id s.d.size g.st
    generalize hx : ExtendVolume env config config.Host projectID regionID s.d.Id s.d.size g.st = x
      at hxd hxp hxdel hxret hxsucc
    obtain ⟨hyd, hyp, hydel, -, err2, hyret, hysucc⟩ :=
      RetypeVolume_spec env config config.Host projectID regionID s.d.Id s.d.type_name x.st
    generalize hy : RetypeVolume env config config.Host projectID regionID s.d.Id s.d.type_name x.st = y
      at hyd hyp hydel hyret hysucc
    obtain ⟨-, -, hrp, hrdel⟩ := resourceVolumeRead_frame env config y.st
    simp [resourceVolumeUpdate, getVolumeData_eq, hProject, hRegion, hg, hFetch, hs, ht, hx, hxret] at hAll ⊢
    obtain ⟨-, -, hAll⟩ := hAll
    have herr : err = none := hxsucc (fun ev hev => hAll ev (Or.inr (Or.inl hev)))
    subst herr
    simp [hy, hyret] at hAll ⊢
    have herr2 : err2 = none := hysucc (fun ev hev => hAll ev (Or.inr (Or.inr (Or.inl hev))))
    subst herr2
    simp [extendCalls, retypeCalls, mutatingRequests, hgp, hgdel, hrp, hrdel, hxp, hxdel, hyp, hydel,
      isVolumeAction]

/-- Claim C2, on the stub provider: the observed volume has 10 units and the
type `standard`, the record asks for 20 units of the same type, so Update
issues one Extend call and no Retype call. -/
theorem update_issues_extend_and_retype_as_needed_witness :
    (getVolume stubOk.env stubConfig.Session stubConfig.Host 1 2 stubRecord.Id stubConfig.Timeout
        { world := (), d := stubRecord }).ret
      = Outcome.val (some stubObserved, none) ∧
    (∀ ev ∈ (resourceVolumeUpdate stubOk.env stubConfig { world := (), d := stubRecord }).events,
      ev.succeeded = true) ∧
    postRequests (resourceVolumeUpdate stubOk.env stubConfig { world := (), d := stubRecord }).events
      = [(URL.ExpandedResourceV1URL "https://api.example" "volumes" 1 2 "vol-1" "extend",
          Bytes.json (JVal.obj [("size", JVal.num 20)]))] ∧
    deleteRequests (resourceVolumeUpdate stubOk.env stubConfig { world := (), d := stubRecord }).events
      = [] ∧
    extendCalls (resourceVolumeUpdate stubOk.env stubConfig { world := (), d := stubRecord }).events = 1 ∧
    retypeCalls (resourceVolumeUpdate stubOk.env stubConfig { world := (), d := stubRecord }).events = 0 ∧
    mutatingRequests (resourceVolumeUpdate stubOk.env stubConfig { world := (), d := stubRecord }).events
      = 1 :=
  have hAll : ∀ ev ∈ (resourceVolumeUpdate stubOk.env stubConfig { world := (), d := stubRecord }).events,
      ev.succeeded = true := by decide
  ⟨rfl, hAll,
    update_issues_extend_and_retype_as_needed stubOk.env stubConfig { world := (), d := stubRecord }
      1 2 stubObserved () () rfl rfl rfl hAll⟩

/-- Claim C3, at the failing input: the POST and the status check succeed and
the task waiter returns an error with no task result; Create indexes the
empty result list before it looks at the error, and panics instead of
returning the error.  Delete, which looks at the error first, returns it on
the same answer of the waiter, and so does Create when the error comes with
a task result. -/
theorem create_panics_on_waiter_error_without_results :
    stubWaiterFails.env.WaitForTasksInResponse () stubConfig { StatusCode := 201, Body := 0 }
        volumeCreating = (([], some "task timeout"), ()) ∧
    (resourceVolumeCreate stubWaiterFails.env stubConfig { world := (), d := stubNewRecord }).ret
      = Outcome.panic "runtime error: index out of range [0] with length 0" ∧
    (resourceVolumeCreate stubWaiterFails.env stubConfig { world := (), d := stubNewRecord }).ret
      ≠ Outcome.val (some "task timeout") ∧
    (resourceVolumeDelete stubWaiterFails.env stubConfig { world := (), d := stubRecord }).ret
      = Outcome.val (some "task timeout") ∧
    (resourceVolumeCreate stubTaskFails.env stubConfig { world := (), d := stubNewRecord }).ret
      = Outcome.val (some "task failed") := by
  refine ⟨rfl, rfl, ?_, rfl, rfl⟩
  intro h
  have h2 : (resourceVolumeCreate stubWaiterFails.env stubConfig
      { world := (), d := stubNewRecord }).ret = Outcome.panic "runtime error: index out of range [0] with length 0" := rfl
  rw [h2] at h
  cases h

/-- Claim C4 fails when the final Read fails: on the stub provider that
answers the GET with status 404, Create returns the error of Read, and the
record that had no identity now carries the new volume ID `vol-9`. -/
theorem create_read_failure_keeps_new_identity :
    (resourceVolumeCreate stubReadFails.env stubConfig { world := (), d := stubNewRecord }).ret
      = Outcome.val (some "Can't find the volume vol-9: unexpected status") ∧
    stubNewRecord.Id = "" ∧
    (resourceVolumeCreate stubReadFails.env stubConfig { world := (), d := stubNewRecord }).st.d.Id
      = "vol-9" ∧
    (resourceVolumeCreate stubReadFails.env stubConfig { world := (), d := stubNewRecord }).st.d.Id
      ≠ stubNewRecord.Id := by
  refine ⟨rfl, rfl, rfl, ?_⟩
  decide

/-- Claim C4, amended. For every run of Create that returns an error: if the
task waiter did not report success (the failure is at scope resolution, the
POST, the status check or the task wait), the record after the call is the
record before the call; if the task waiter reported success (the failure is
in the final Read), the record after the call is the record before the call
with its identity set to the first volume ID decoded from the first task
result. -/
theorem create_error_record_effect (env : Env W) (config : Config) (s : St W) (e : Error)
    (h : (resourceVolumeCreate env config s).ret = Outcome.val (some e)) :
    (waiterSucceeded (resourceVolumeCreate env config s).events = false ∧
      (resourceVolumeCreate env config s).st.d = s.d) ∨
    (waiterSucceeded (resourceVolumeCreate env config s).events = true ∧
      ∃ resp task rest volumeID others,
        Event.WaitForTasksInResponse resp volumeCreating (task :: rest, none)
          ∈ (resourceVolumeCreate env config s).events ∧
        env.mapstructureDecode task = { Volumes := volumeID :: others } ∧
        (resourceVolumeCreate env config s).st.d = { s.d with Id := volumeID }) := by
  rcases h1 : env.GetProject s.world config s.d ("create a " ++ s.d.name ++ " volume") with ⟨r1, w1⟩
  cases r1 with
  | error e1 => left; simp [resourceVolumeCreate, h1, waiterSucceeded]
  | ok projectID =>
    rcases h2 : env.GetRegion w1 config s.d ("create a " ++ s.d.name ++ " volume") with ⟨r2, w2⟩
    cases r2 with
    | error e2 => left; simp [resourceVolumeCreate, h1, h2, waiterSucceeded]
    | ok regionID =>
      rcases h3 : env.PostRequest w2 config.Session
        (URL.ResourcesV1URL config.Host "volumes" projectID regionID)
        (Bytes.json (json.encodeVolume (getVolumeData s.d))) config.Timeout with ⟨r3, w3⟩
      cases r3 with
      | error e3 =>
        left
        simp [resourceVolumeCreate, createVolumeRequestBody, json.Marshal_Volume, h1, h2, h3,
          waiterSucceeded]
      | ok resp =>
        rcases h4 : env.CheckSuccessfulResponse w3 resp ("Create volume " ++ s.d.name ++ " failed")
          with ⟨r4, w4⟩
        cases r4 with
        | some e4 =>
          left
          simp [resourceVolumeCreate, createVolumeRequestBody, json.Marshal_Volume, h1, h2, h3, h4,
            waiterSucceeded]
        | none =>
          rcases h5 : env.WaitForTasksInResponse w4 config resp 1200 with ⟨⟨ts, r5⟩, w5⟩
          cases ts with
          | nil =>
            simp [resourceVolumeCreate, createVolumeRequestBody, json.Marshal_Volume, volumeCreating,
              h1, h2, h3, h4, h5] at h
          | cons task rest =>
            cases r5 with
            | some e5 =>
              left
              simp [resourceVolumeCreate, createVolumeRequestBody, json.Marshal_Volume, volumeCreating,
                h1, h2, h3, h4, h5, waiterSucceeded]
            | none =>
              cases h6 : (env.mapstructureDecode task).Volumes with
              | nil =>
                simp [resourceVolumeCreate, createVolumeRequestBody, json.Marshal_Volume, volumeCreating,
                  h1, h2, h3, h4, h5, h6] at h
              | cons volumeID others =>
                right
                obtain ⟨err, hret, hd⟩ := resourceVolumeRead_ret env config
                  { world := w5, d := { s.d with Id := volumeID } }
                dsimp only at hret hd
                simp [resourceVolumeCreate, createVolumeRequestBody, json.Marshal_Volume, volumeCreating,
                  h1, h2, h3, h4, h5, h6, hret] at h
                subst h
                have hd2 := hd (by simp)
                refine ⟨?_, resp, task, rest, volumeID, others, ?_, ?_, ?_⟩
                · simp [resourceVolumeCreate, createVolumeRequestBody, json.Marshal_Volume,
                    volumeCreating, h1, h2, h3, h4, h5, h6, waiterSucceeded]
                · simp [resourceVolumeCreate, createVolumeRequestBody, json.Marshal_Volume,
                    volumeCreating, h1, h2, h3, h4, h5, h6]
                · cases hv : env.mapstructureDecode task
                  simp_all
                · simp [resourceVolumeCreate, createVolumeRequestBody, json.Marshal_Volume,
                    volumeCreating, h1, h2, h3, h4, h5, h6, hd2]

/-- Claim C4 as amended, on the stub provider that answers the POST with
status 500: Create returns the error of the status check, the waiter has not
reported success, and the record is unchanged. -/
theorem create_error_record_effect_witness :
    (resourceVolumeCreate stubRejecting.env stubConfig { world := (), d := stubNewRecord }).ret
      = Outcome.val (some "Create volume test-vol failed: unexpected status") ∧
    waiterSucceeded
      (resourceVolumeCreate stubRejecting.env stubConfig { world := (), d := stubNewRecord }).events
      = false ∧
    (resourceVolumeCreate stubRejecting.env stubConfig { world := (), d := stubNewRecord }).st.d
      = stubNewRecord :=
  ⟨rfl,
    (create_error_record_effect stubRejecting.env stubConfig { world := (), d := stubNewRecord }
      "Create volume test-vol failed: unexpected status" rfl).elim id
      (fun h => absurd h.1 (by decide))⟩

/-- Claim C5. When scope resolution, the POST, the status check and the task
waiter succeed and the first task result decodes to a non-empty list of
volume IDs, Create sets the identity to the first ID of that list, invokes
the waiter once, with the creation timeout, and returns what Read returns
on the record carrying that identity. -/
theorem create_takes_first_volume_id (env : Env W) (config : Config) (s : St W)
    (projectID regionID : Int) (resp : Response) (task : JVal) (tasks : List JVal)
    (volumeID : String) (others : List String) (w1 w2 w3 w4 w5 : W)
    (hProject : env.GetProject s.world config s.d ("create a " ++ s.d.name ++ " volume")
      = (Except.ok projectID, w1))
    (hRegion : env.GetRegion w1 config s.d ("create a " ++ s.d.name ++ " volume")
      = (Except.ok regionID, w2))
    (hPost : env.PostRequest w2 config.Session (URL.ResourcesV1URL config.Host "volumes" projectID regionID)
      (Bytes.json (json.encodeVolume (getVolumeData s.d))) config.Timeout = (Except.ok resp, w3))
    (hCheck : env.CheckSuccessfulResponse w3 resp ("Create volume " ++ s.d.name ++ " failed") = (none, w4))
    (hWait : env.WaitForTasksInResponse w4 config resp volumeCreating = ((task :: tasks, none), w5))
    (hDecode : env.mapstructureDecode task = { Volumes := volumeID :: others }) :
    (resourceVolumeCreate env config s).st.d.Id = volumeID ∧
    waiterTimeouts (resourceVolumeCreate env config s).events = [volumeCreating] ∧
    volumeCreating = 1200 ∧
    (resourceVolumeCreate env config s).ret
      = (resourceVolumeRead env config { world := w5, d := { s.d with Id := volumeID } }).ret ∧
    (resourceVolumeCreate env config s).st
      = (resourceVolumeRead env config { world := w5, d := { s.d with Id := volumeID } }).st := by
  obtain ⟨hid, hw, -, -⟩ :=
    resourceVolumeRead_frame env config { world := w5, d := { s.d with Id := volumeID } }
  dsimp only at hid hw
  simp only [volumeCreating] at hWait
  simp [resourceVolumeCreate, createVolumeRequestBody, json.Marshal_Volume, hProject, hRegion, hPost,
    hCheck, hWait, hDecode, hid, hw, volumeCreating]

/-- Claim C5, on the stub provider whose creation task yields the volume IDs
`vol-9` and `vol-10`: the identity becomes `vol-9`. -/
theorem create_takes_first_volume_id_witness :
    stubOk.env.mapstructureDecode (JVal.obj [("volumes", JVal.arr [JVal.str "vol-9", JVal.str "vol-10"])])
      = { Volumes := ["vol-9", "vol-10"] } ∧
    (resourceVolumeCreate stubOk.env stubConfig { world := (), d := stubNewRecord }).st.d.Id = "vol-9" ∧
    waiterTimeouts (resourceVolumeCreate stubOk.env stubConfig { world := (), d := stubNewRecord }).events
      = [volumeCreating] ∧
    volumeCreating = 1200 ∧
    (resourceVolumeCreate stubOk.env stubConfig { world := (), d := stubNewRecord }).ret
      = (resourceVolumeRead stubOk.env stubConfig
          { world := (), d := { stubNewRecord with Id := "vol-9" } }).ret ∧
    (resourceVolumeCreate stubOk.env stubConfig { world := (), d := stubNewRecord }).st
      = (resourceVolumeRead stubOk.env stubConfig
          { world := (), d := { stubNewRecord with Id := "vol-9" } }).st :=
  ⟨rfl,
    create_takes_first_volume_id stubOk.env stubConfig { world := (), d := stubNewRecord } 1 2
      { StatusCode := 201, Body := 0 }
      (JVal.obj [("volumes", JVal.arr [JVal.str "vol-9", JVal.str "vol-10"])]) []
      "vol-9" ["vol-10"] () () () () () rfl rfl rfl rfl rfl rfl⟩

/-- Claim C6. For every configuration whose size is a Go `int`, the create
payload is a JSON object whose keys are `size`, `source` and `name`, followed
by those of `type_name`, `image_id` and `snapshot_id` whose configured value
is not empty; and decoding the payload into a fresh `Volume` gives back the
configured value of every field, without error. -/
theorem create_payload_keys_and_roundtrip (d : ResourceData)
    (hSize : json.inIntRange d.size = true) :
    ∃ members,
      createVolumeRequestBody d = Except.ok (Bytes.json (JVal.obj members)) ∧
      members.map Prod.fst
        = ["size", "source", "name"]
          ++ (if d.type_name = "" then [] else ["type_name"])
          ++ (if d.image_id = "" then [] else ["image_id"])
          ++ (if d.snapshot_id = "" then [] else ["snapshot_id"]) ∧
      json.Unmarshal_Volume (Bytes.json (JVal.obj members))
          { Size := 0, Source := "", Name := "", TypeName := "", ImageID := "", SnapshotID := "" }
        = ({ Size := d.size, Source := d.source, Name := d.name, TypeName := d.type_name,
             ImageID := d.image_id, SnapshotID := d.snapshot_id }, none) := by
  refine ⟨_, by simp only [createVolumeRequestBody, json.Marshal_Volume, json.encodeVolume]; rfl, ?_, ?_⟩
  · rw [getVolumeData_eq]
    by_cases h1 : d.image_id = "" <;> by_cases h2 : d.type_name = "" <;>
      by_cases h3 : d.snapshot_id = "" <;> simp [json.omitempty, h1, h2, h3]
  · rw [getVolumeData_eq]
    by_cases h1 : d.image_id = "" <;> by_cases h2 : d.type_name = "" <;>
      by_cases h3 : d.snapshot_id = "" <;>
      simp [json.omitempty, h1, h2, h3, json.Unmarshal_Volume, json.setVolumeMember, json.fieldFor,
        json.decodeInt, json.decodeString, hSize, List.find?]

/-- Claim C6, on the stub record (type set, no image, no snapshot): the
payload has the keys `size`, `source`, `name`, `type_name`. -/
theorem create_payload_keys_and_roundtrip_witness :
    json.inIntRange stubRecord.size = true ∧
    ∃ members,
      createVolumeRequestBody stubRecord = Except.ok (Bytes.json (JVal.obj members)) ∧
      members.map Prod.fst = ["size", "source", "name", "type_name"] ∧
      json.Unmarshal_Volume (Bytes.json (JVal.obj members))
          { Size := 0, Source := "", Name := "", TypeName := "", ImageID := "", SnapshotID := "" }
        = ({ Size := 20, Source := "new-volume", Name := "test-vol", TypeName := "standard",
             ImageID := "", SnapshotID := "" }, none) :=
  ⟨rfl, create_payload_keys_and_roundtrip stubRecord rfl⟩

/-- Claim C7. When the DELETE request and its status check succeed and the
task waiter returns an error, Delete returns that error and leaves the record
as it was, identity included, so that a later Delete call issues its DELETE
request for the same volume ID. -/
theorem delete_waiter_error_keeps_record (env : Env W) (config : Config) (s : St W)
    (projectID regionID : Int) (resp : Response) (tasks : List JVal) (e : Error) (w1 w2 w3 w4 w5 : W)
    (hProject : env.GetProject s.world config s.d ("delete the " ++ s.d.Id ++ " volume")
      = (Except.ok projectID, w1))
    (hRegion : env.GetRegion w1 config s.d ("delete the " ++ s.d.Id ++ " volume")
      = (Except.ok regionID, w2))
    (hDelete : env.DeleteRequest w2 config.Session
      (URL.ResourceV1URL config.Host "volumes" projectID regionID s.d.Id) config.Timeout
      = (Except.ok resp, w3))
    (hCheck : env.CheckSuccessfulResponse w3 resp ("Delete volume " ++ s.d.Id ++ " failed") = (none, w4))
    (hWait : env.WaitForTasksInResponse w4 config resp volumeDeleting = ((tasks, some e), w5)) :
    (resourceVolumeDelete env config s).ret = Outcome.val (some e) ∧
    (resourceVolumeDelete env config s).st.d = s.d ∧
    (resourceVolumeDelete env config s).st.d.Id = s.d.Id ∧
    ∀ (later : W),
      ∀ url ∈ deleteRequests
          (resourceVolumeDelete env config
            { world := later, d := (resourceVolumeDelete env config s).st.d }).events,
        ∃ p r, url = URL.ResourceV1URL config.Host "volumes" p r s.d.Id := by
  have hd : (resourceVolumeDelete env config s).st.d = s.d := (resourceVolumeDelete_frame env config s).1
  simp only [volumeDeleting] at hWait
  refine ⟨?_, hd, by rw [hd], ?_⟩
  · simp [resourceVolumeDelete, volumeDeleting, hProject, hRegion, hDelete, hCheck, hWait]
  · intro later url hurl
    rw [hd] at hurl
    exact (resourceVolumeDelete_frame env config { world := later, d := s.d }).2.2 url hurl

/-- Claim C7, on the stub provider whose task waiter times out: Delete
returns the timeout and the record still names the volume `vol-1`. -/
theorem delete_waiter_error_keeps_record_witness :
    stubWaiterFails.env.WaitForTasksInResponse () stubConfig { StatusCode := 200, Body := 1 }
        volumeDeleting = (([], some "task timeout"), ()) ∧
    (resourceVolumeDelete stubWaiterFails.env stubConfig { world := (), d := stubRecord }).ret
      = Outcome.val (some "task timeout") ∧
    (resourceVolumeDelete stubWaiterFails.env stubConfig { world := (), d := stubRecord }).st.d
      = stubRecord ∧
    (resourceVolumeDelete stubWaiterFails.env stubConfig { world := (), d := stubRecord }).st.d.Id
      = "vol-1" ∧
    ∀ (later : Unit),
      ∀ url ∈ deleteRequests
          (resourceVolumeDelete stubWaiterFails.env stubConfig
            { world := later,
              d := (resourceVolumeDelete stubWaiterFails.env stubConfig
                { world := (), d := stubRecord }).st.d }).events,
        ∃ p r, url = URL.ResourceV1URL "https://api.example" "volumes" p r "vol-1" :=
  ⟨rfl,
    delete_waiter_error_keeps_record stubWaiterFails.env stubConfig { world := (), d := stubRecord }
      1 2 { StatusCode := 200, Body := 1 } [] "task timeout" () () () () () rfl rfl rfl rfl rfl⟩

/-- Claim C8. Extend issues exactly one POST, to the `extend` action endpoint
of the volume with the body `{size: newSize}`; when the status check passes
it invokes the task waiter once with the bound 1200 and returns the error of
the waiter, if any.  The bound 1200 is the one Create and Delete pass to the
waiter.  Retype issues exactly one POST, to the `retype` action endpoint with
the body `{volume_type: newType}`, never invokes the waiter, and returns
success as soon as the status check passes. -/
theorem extend_waits_once_retype_never (env : Env W) (config : Config) (host : String)
    (projectID regionID : Int) (volumeID : String) (newSize : Int) (newType : String) (s : St W) :
    (postRequests (ExtendVolume env config host projectID regionID volumeID newSize s).events
        = [(URL.ExpandedResourceV1URL host "volumes" projectID regionID volumeID "extend",
            Bytes.json (JVal.obj [("size", JVal.num newSize)]))]
      ∧ ∀ resp w1 w2,
          env.PostRequest s.world config.Session
            (URL.ExpandedResourceV1URL host "volumes" projectID regionID volumeID "extend")
            (Bytes.json (JVal.obj [("size", JVal.num newSize)])) config.Timeout = (Except.ok resp, w1) →
          env.CheckSuccessfulResponse w1 resp ("Extend volume " ++ volumeID ++ " failed") = (none, w2) →
          waiterTimeouts (ExtendVolume env config host projectID regionID volumeID newSize s).events = [1200]
          ∧ (ExtendVolume env config host projectID regionID volumeID newSize s).ret
              = Outcome.val (env.WaitForTasksInResponse w2 config resp 1200).1.2)
    ∧ (volumeExtending = 1200 ∧ volumeCreating = 1200 ∧ volumeDeleting = 1200
      ∧ (∀ t ∈ waiterTimeouts (resourceVolumeCreate env config s).events, t = 1200)
      ∧ (∀ t ∈ waiterTimeouts (resourceVolumeDelete env config s).events, t = 1200))
    ∧ (postRequests (RetypeVolume env config host projectID regionID volumeID newType s).events
        = [(URL.ExpandedResourceV1URL host "volumes" projectID regionID volumeID "retype",
            Bytes.json (JVal.obj [("volume_type", JVal.str newType)]))]
      ∧ waiterTimeouts (RetypeVolume env config host projectID regionID volumeID newType s).events = []
      ∧ ∀ resp w1 w2,
          env.PostRequest s.world config.Session
            (URL.ExpandedResourceV1URL host "volumes" projectID regionID volumeID "retype")
            (Bytes.json (JVal.obj [("volume_type", JVal.str newType)])) config.Timeout = (Except.ok resp, w1) →
          env.CheckSuccessfulResponse w1 resp ("Retype volume " ++ volumeID ++ " failed") = (none, w2) →
          (RetypeVolume env config host projectID regionID volumeID newType s).ret = Outcome.val none) := by
  refine ⟨⟨(ExtendVolume_spec env config host projectID regionID volumeID newSize s).2.1, ?_⟩,
    ⟨rfl, rfl, rfl, resourceVolumeCreate_timeouts env config s,
      (resourceVolumeDelete_frame env config s).2.1⟩,
    (RetypeVolume_spec env config host projectID regionID volumeID newType s).2.1,
    (RetypeVolume_spec env config host projectID regionID volumeID newType s).2.2.2.1, ?_⟩
  · intro resp w1 w2 h1 h2
    rcases h3 : env.WaitForTasksInResponse w2 config resp 1200 with ⟨⟨ts, r3⟩, w3⟩
    cases r3 <;> simp [ExtendVolume, json.Marshal_Size, json.encodeSize, volumeExtending, h1, h2, h3]
  · intro resp w1 w2 h1 h2
    simp [RetypeVolume, json.Marshal_Type, json.encodeType, h1, h2]

/-- Claim C8, on the stub provider on which every call succeeds: Extend waits
once with the bound 1200 and returns no error, Retype returns no error
without waiting. -/
theorem extend_waits_once_retype_never_witness :
    (stubOk.env.CheckSuccessfulResponse () { StatusCode := 201, Body := 0 }
        "Extend volume vol-1 failed" = (none, ()) ∧
      waiterTimeouts (ExtendVolume stubOk.env stubConfig "https://api.example" 1 2 "vol-1" 30
        { world := (), d := stubRecord }).events = [1200] ∧
      (ExtendVolume stubOk.env stubConfig "https://api.example" 1 2 "vol-1" 30
        { world := (), d := stubRecord }).ret = Outcome.val none) ∧
    (stubOk.env.CheckSuccessfulResponse () { StatusCode := 201, Body := 0 }
        "Retype volume vol-1 failed" = (none, ()) ∧
      (RetypeVolume stubOk.env stubConfig "https://api.example" 1 2 "vol-1" "ssd_hiiops"
        { world := (), d := stubRecord }).ret = Outcome.val none) :=
  ⟨⟨rfl, (extend_waits_once_retype_never stubOk.env stubConfig "https://api.example" 1 2 "vol-1" 30
      "ssd_hiiops" { world := (), d := stubRecord }).1.2 { StatusCode := 201, Body := 0 } () () rfl rfl⟩,
   ⟨rfl, (extend_waits_once_retype_never stubOk.env stubConfig "https://api.example" 1 2 "vol-1" 30
      "ssd_hiiops" { world := (), d := stubRecord }).2.2.2.2 { StatusCode := 201, Body := 0 } () ()
      rfl rfl⟩⟩

/-- Claim C9 fails on the Read: on the stub provider the parser accepts
`1:2:vol-abc`, and the importer returns without a single collaborator call;
the size of the record stays 20, where a Read of the imported volume makes
five calls and brings the observed size 10. -/
theorem import_runs_no_read :
    stubOk.env.ImportStringParser stubImportRecord.Id = Except.ok (1, 2, "vol-abc") ∧
    (resourceVolumeV1_Importer_State stubOk.env { world := (), d := stubImportRecord }).events = [] ∧
    (resourceVolumeV1_Importer_State stubOk.env { world := (), d := stubImportRecord }).st.d.size = 20 ∧
    (resourceVolumeRead stubOk.env stubConfig
      (resourceVolumeV1_Importer_State stubOk.env { world := (), d := stubImportRecord }).st).events.length
      = 5 ∧
    (resourceVolumeRead stubOk.env stubConfig
      (resourceVolumeV1_Importer_State stubOk.env { world := (), d := stubImportRecord }).st).st.d.size
      = 10 :=
  ⟨rfl, rfl, rfl, rfl, rfl⟩

/-- Claim C9, amended. For every import identifier the parser accepts as
(projectID, regionID, volumeID), the importer returns a single record, the
record it was given with `project_id` set to projectID, `region_id` set to
regionID and the identity set to volumeID, and returns without running Read
or calling any collaborator (the Read of that identity is left to the
caller); for every identifier the parser rejects, the importer returns the
error of the parser and no record, and leaves the record unchanged. -/
theorem import_seeds_scope_and_identity (env : Env W) (s : St W) :
    (∀ projectID regionID volumeID,
      env.ImportStringParser s.d.Id = Except.ok (projectID, regionID, volumeID) →
      (resourceVolumeV1_Importer_State env s).ret
        = Outcome.val ([{ s.d with project_id := projectID, region_id := regionID, Id := volumeID }], none) ∧
      (resourceVolumeV1_Importer_State env s).st
        = { world := s.world,
            d := { s.d with project_id := projectID, region_id := regionID, Id := volumeID } } ∧
      (resourceVolumeV1_Importer_State env s).events = []) ∧
    (∀ e,
      env.ImportStringParser s.d.Id = Except.error e →
      (resourceVolumeV1_Importer_State env s).ret = Outcome.val ([], some e) ∧
      (resourceVolumeV1_Importer_State env s).st = s ∧
      (resourceVolumeV1_Importer_State env s).events = []) := by
  refine ⟨?_, ?_⟩
  · intro projectID regionID volumeID h
    simp [resourceVolumeV1_Importer_State, h]
  · intro e h
    simp [resourceVolumeV1_Importer_State, h]

/-- Claim C9 as amended, on the stub provider: `1:2:vol-abc` is accepted and
seeds project 1, region 2 and the identity `vol-abc`; `vol-1` is rejected
and the record is left as it was. -/
theorem import_seeds_scope_and_identity_witness :
    (stubOk.env.ImportStringParser stubImportRecord.Id = Except.ok (1, 2, "vol-abc") ∧
      (resourceVolumeV1_Importer_State stubOk.env { world := (), d := stubImportRecord }).ret
        = Outcome.val ([{ stubRecord with project_id := 1, region_id := 2, Id := "vol-abc" }], none) ∧
      (resourceVolumeV1_Importer_State stubOk.env { world := (), d := stubImportRecord }).st
        = { world := (),
            d := { stubRecord with project_id := 1, region_id := 2, Id := "vol-abc" } } ∧
      (resourceVolumeV1_Importer_State stubOk.env { world := (), d := stubImportRecord }).events = []) ∧
    (stubOk.env.ImportStringParser stubRecord.Id = Except.error "Failed import: wrong input id: vol-1" ∧
      (resourceVolumeV1_Importer_State stubOk.env { world := (), d := stubRecord }).ret
        = Outcome.val ([], some "Failed import: wrong input id: vol-1") ∧
      (resourceVolumeV1_Importer_State stubOk.env { world := (), d := stubRecord }).st
        = { world := (), d := stubRecord } ∧
      (resourceVolumeV1_Importer_State stubOk.env { world := (), d := stubRecord }).events = []) :=
  ⟨⟨rfl, (import_seeds_scope_and_identity stubOk.env { world := (), d := stubImportRecord }).1
      1 2 "vol-abc" rfl⟩,
   ⟨rfl, (import_seeds_scope_and_identity stubOk.env { world := (), d := stubRecord }).2
      "Failed import: wrong input id: vol-1" rfl⟩⟩

/-- Claim C10. A successful Read leaves the record with `size`, `region_id`,
`project_id`, `source`, `name` and `type_name` equal to the size, region,
project, source, name and type of the observed volume, and with its identity
and every other field unchanged; when scope resolution or the fetch fails,
Read returns that error and leaves the whole record unchanged.  The last part
states the success case on the calls themselves: the observed volume is the
one decoded from the body of the successful GET. -/
theorem read_copies_observed_fields (env : Env W) (config : Config) (s : St W) :
    (∀ projectID regionID observed w1 w2,
      env.GetProject s.world config s.d ("get a volume " ++ s.d.Id) = (Except.ok projectID, w1) →
      env.GetRegion w1 config s.d ("get a volume " ++ s.d.Id) = (Except.ok regionID, w2) →
      (getVolume env config.Session config.Host projectID regionID s.d.Id config.Timeout
        { world := w2, d := s.d }).ret = Outcome.val (some observed, none) →
      (resourceVolumeRead env config s).ret = Outcome.val none ∧
      (resourceVolumeRead env config s).st.d =
        { Id := s.d.Id, project_id := observed.ProjectID, region_id := observed.RegionID,
          project_name := s.d.project_name, region_name := s.d.region_name,
          name := observed.Name, source := observed.Source, size := observed.Size,
          type_name := observed.TypeName, image_id := s.d.image_id, snapshot_id := s.d.snapshot_id }) ∧
    (∀ e w1,
      env.GetProject s.world config s.d ("get a volume " ++ s.d.Id) = (Except.error e, w1) →
      (resourceVolumeRead env config s).ret = Outcome.val (some e) ∧
      (resourceVolumeRead env config s).st.d = s.d) ∧
    (∀ projectID e w1 w2,
      env.GetProject s.world config s.d ("get a volume " ++ s.d.Id) = (Except.ok projectID, w1) →
      env.GetRegion w1 config s.d ("get a volume " ++ s.d.Id) = (Except.error e, w2) →
      (resourceVolumeRead env config s).ret = Outcome.val (some e) ∧
      (resourceVolumeRead env config s).st.d = s.d) ∧
    (∀ projectID regionID volume e w1 w2,
      env.GetProject s.world config s.d ("get a volume " ++ s.d.Id) = (Except.ok projectID, w1) →
      env.GetRegion w1 config s.d ("get a volume " ++ s.d.Id) = (Except.ok regionID, w2) →
      (getVolume env config.Session config.Host projectID regionID s.d.Id config.Timeout
        { world := w2, d := s.d }).ret = Outcome.val (volume, some e) →
      (resourceVolumeRead env config s).ret = Outcome.val (some e) ∧
      (resourceVolumeRead env config s).st.d = s.d) ∧
    (∀ projectID regionID resp body observed w1 w2 w3 w4 w5,
      env.GetProject s.world config s.d ("get a volume " ++ s.d.Id) = (Except.ok projectID, w1) →
      env.GetRegion w1 config s.d ("get a volume " ++ s.d.Id) = (Except.ok regionID, w2) →
      env.GetRequest w2 config.Session
        (URL.ResourceV1URL config.Host "volumes" projectID regionID s.d.Id) config.Timeout
        = (Except.ok resp, w3) →
      env.CheckSuccessfulResponse w3 resp ("Can't find the volume " ++ s.d.Id) = (none, w4) →
      env.ReadAll w4 resp = (Except.ok body, w5) →
      json.Unmarshal_OpenstackVolume body
          { Size := 0, RegionID := 0, ProjectID := 0, TypeName := "", Source := "", Name := "" }
        = (observed, none) →
      (resourceVolumeRead env config s).ret = Outcome.val none ∧
      (resourceVolumeRead env config s).st.d =
        { Id := s.d.Id, project_id := observed.ProjectID, region_id := observed.RegionID,
          project_name := s.d.project_name, region_name := s.d.region_name,
          name := observed.Name, source := observed.Source, size := observed.Size,
          type_name := observed.TypeName, image_id := s.d.image_id, snapshot_id := s.d.snapshot_id }) := by
  refine ⟨?_, ?_, ?_, ?_, ?_⟩
  rotate_left 4
  · intro projectID regionID resp body observed w1 w2 w3 w4 w5 h1 h2 h3 h4 h5 h6
    simp [resourceVolumeRead, getVolume, parseJSONVolume, h1, h2, h3, h4, h5, h6]
  · intro projectID regionID observed w1 w2 h1 h2 h3
    have hd := (getVolume_frame env config.Session config.Host projectID regionID s.d.Id
      config.Timeout { world := w2, d := s.d }).1
    dsimp only at hd
    simp [resourceVolumeRead, h1, h2, h3, hd]
  · intro e w1 h1
    simp [resourceVolumeRead, h1]
  · intro projectID e w1 w2 h1 h2
    simp [resourceVolumeRead, h1, h2]
  · intro projectID regionID volume e w1 w2 h1 h2 h3
    have hd := (getVolume_frame env config.Session config.Host projectID regionID s.d.Id
      config.Timeout { world := w2, d := s.d }).1
    dsimp only at hd
    simp [resourceVolumeRead, h1, h2, h3, hd]

/-- Claim C10, on the stub providers: a successful Read of `vol-1` brings the
observed size 10 and keeps the identity; a Read whose project, region or
fetch fails returns that error and keeps the record. -/
theorem read_copies_observed_fields_witness :
    ((getVolume stubOk.env stubConfig.Session stubConfig.Host 1 2 "vol-1" stubConfig.Timeout
        { world := (), d := stubRecord }).ret = Outcome.val (some stubObserved, none) ∧
      (resourceVolumeRead stubOk.env stubConfig { world := (), d := stubRecord }).ret = Outcome.val none ∧
      (resourceVolumeRead stubOk.env stubConfig { world := (), d := stubRecord }).st.d
        = { stubRecord with size := 10 }) ∧
    (stubNoProject.env.GetProject () stubConfig stubRecord "get a volume vol-1"
        = (Except.error "project is not set", ()) ∧
      (resourceVolumeRead stubNoProject.env stubConfig { world := (), d := stubRecord }).ret
        = Outcome.val (some "project is not set") ∧
      (resourceVolumeRead stubNoProject.env stubConfig { world := (), d := stubRecord }).st.d
        = stubRecord) ∧
    (stubNoRegion.env.GetRegion () stubConfig stubRecord "get a volume vol-1"
        = (Except.error "region is not set", ()) ∧
      (resourceVolumeRead stubNoRegion.env stubConfig { world := (), d := stubRecord }).ret
        = Outcome.val (some "region is not set") ∧
      (resourceVolumeRead stubNoRegion.env stubConfig { world := (), d := stubRecord }).st.d
        = stubRecord) ∧
    ((getVolume stubReadFails.env stubConfig.Session stubConfig.Host 1 2 "vol-1" stubConfig.Timeout
        { world := (), d := stubRecord }).ret
        = Outcome.val (none, some "Can't find the volume vol-1: unexpected status") ∧
      (resourceVolumeRead stubReadFails.env stubConfig { world := (), d := stubRecord }).ret
        = Outcome.val (some "Can't find the volume vol-1: unexpected status") ∧
      (resourceVolumeRead stubReadFails.env stubConfig { world := (), d := stubRecord }).st.d
        = stubRecord) ∧
    (stubOk.env.ReadAll () { StatusCode := 200, Body := 2 } = (Except.ok stubVolumeBody, ()) ∧
      json.Unmarshal_OpenstackVolume stubVolumeBody
          { Size := 0, RegionID := 0, ProjectID := 0, TypeName := "", Source := "", Name := "" }
        = (stubObserved, none) ∧
      (resourceVolumeRead stubOk.env stubConfig { world := (), d := stubRecord }).ret = Outcome.val none ∧
      (resourceVolumeRead stubOk.env stubConfig { world := (), d := stubRecord }).st.d
        = { stubRecord with size := 10 }) :=
  ⟨⟨rfl, (read_copies_observed_fields stubOk.env stubConfig { world := (), d := stubRecord }).1
      1 2 stubObserved () () rfl rfl rfl⟩,
   ⟨rfl, (read_copies_observed_fields stubNoProject.env stubConfig { world := (), d := stubRecord }).2.1
      "project is not set" () rfl⟩,
   ⟨rfl, (read_copies_observed_fields stubNoRegion.env stubConfig { world := (), d := stubRecord }).2.2.1
      1 "region is not set" () () rfl rfl⟩,
   ⟨rfl, (read_copies_observed_fields stubReadFails.env stubConfig { world := (), d := stubRecord }).2.2.2.1
      1 2 none "Can't find the volume vol-1: unexpected status" () () rfl rfl rfl⟩,
   ⟨rfl, rfl,
    (read_copies_observed_fields stubOk.env stubConfig { world := (), d := stubRecord }).2.2.2.2
      1 2 { StatusCode := 200, Body := 2 } stubVolumeBody stubObserved () () () () ()
      rfl rfl rfl rfl rfl rfl⟩⟩

end GcoreVolume
